import Mathlib

/-!
# Verification of `mwaa/logging/config.py`

A shallow embedding of the module
`src/images/airflow/2.9.1/python/mwaa/logging/config.py` from the
`amazon-mwaa-docker-images` repository, together with theorems settling the
specification claims about it.

Modelling choices:

* A Python `dict` with string keys is an association list `List (String × PyVal)`
  where `PyVal` covers the value shapes the module stores (strings, booleans,
  `None`, lists of strings, nested dicts).  Lookup returns the first binding;
  assignment overwrites in place or appends at the end, matching Python's
  insertion-order semantics.
* The process environment is a function `Env := String → Option String`;
  `os.environ.get(k, d)` is `(env k).getD d` (or `env k` when the default is
  `None`).
* Operations that can raise in Python (`KeyError` on a missing key,
  attribute/type errors on a non-dict value) return `Option`: `Option.none`
  models an exception escaping the function.
* Values imported from outside this module (Airflow's
  `BASE_LOG_FOLDER`, `DAG_PROCESSOR_MANAGER_LOG_LOCATION`,
  `PROCESSOR_FILENAME_TEMPLATE`, and the qualified names of the CloudWatch
  handler classes computed by `qualified_name`) are opaque string parameters
  collected in `HostParams`; `DEFAULT_LOGGING_CONFIG` is an arbitrary initial
  dictionary.  All theorems hold for every value of these parameters.
-/

/-- The value space of the Python dictionaries built by the module. -/
inductive PyVal where
  | str (s : String)
  | boolV (b : Bool)
  | noneV
  | list (l : List String)
  | dict (d : List (String × PyVal))

/-- A Python dictionary with string keys. -/
abbrev Dict := List (String × PyVal)

/-- The process environment: `os.environ` as a partial map. -/
abbrev Env := String → Option String

/-- `d[k]` as a total lookup: the value bound to `k`, if any. -/
def dget (d : Dict) (k : String) : Option PyVal :=
  match d with
  | [] => Option.none
  | (k', v) :: rest => if k' = k then Option.some v else dget rest k

/-- `d[k] = v`: overwrite the existing binding in place, or append a new one,
mirroring Python's insertion-order-preserving assignment. -/
def dset (d : Dict) (k : String) (v : PyVal) : Dict :=
  match d with
  | [] => [(k, v)]
  | (k', v') :: rest => if k' = k then (k, v) :: rest else (k', v') :: dset rest k v

/-- Extract a dict value, failing on any other shape (models Python raising a
`TypeError`/`AttributeError` when subscripting or `.update()`-ing a non-dict). -/
def asDict : PyVal → Option Dict
  | PyVal.dict d => Option.some d
  | _ => Option.none

/-- `d.update(u)`: fold the bindings of `u` into `d`, left to right. -/
def dict_update (d : Dict) (u : Dict) : Dict :=
  u.foldl (fun acc kv => dset acc kv.1 kv.2) d

/-- `cfg[k1][k2] = v` where `cfg[k1]` must already be bound to a dict
(`KeyError` otherwise, modelled by `Option.none`). -/
def set_in (cfg : Dict) (k1 k2 : String) (v : PyVal) : Option Dict :=
  match dget cfg k1 with
  | Option.some (PyVal.dict inner) =>
      Option.some (dset cfg k1 (PyVal.dict (dset inner k2 v)))
  | _ => Option.none

/-- `cfg[k1][k2].update(u)`: both `cfg[k1]` and `cfg[k1][k2]` must already be
bound to dicts (`KeyError` on the inner lookup otherwise). -/
def update_in (cfg : Dict) (k1 k2 : String) (u : Dict) : Option Dict :=
  match dget cfg k1 with
  | Option.some (PyVal.dict inner) =>
      match dget inner k2 with
      | Option.some (PyVal.dict entry) =>
          Option.some (dset cfg k1 (PyVal.dict (dset inner k2
            (PyVal.dict (dict_update entry u)))))
      | _ => Option.none
  | _ => Option.none

/-- `s.upper()` for the ASCII source names this module uses: uppercase each
character.  (Defined over `s.data` so it reduces definitionally, unlike
`String.map`.) -/
def py_upper (s : String) : String :=
  String.mk (s.data.map Char.toUpper)

/-- `s.lower()` for ASCII strings: lowercase each character. -/
def py_lower (s : String) : String :=
  String.mk (s.data.map Char.toLower)

/-- `s.replace(".", "_")`: since the pattern is a single character, this is a
character-wise substitution. -/
def replace_dot_with_underscore (s : String) : String :=
  String.mk (s.data.map fun c => if c = '.' then '_' else c)

/-- Python truthiness of a `str | None` value: `None` and `""` are falsy. -/
def truthy : Option String → Bool
  | Option.none => false
  | Option.some s => !(s == "")

/-- A `str | None` value stored into a dict. -/
def optStrVal : Option String → PyVal
  | Option.none => PyVal.noneV
  | Option.some s => PyVal.str s

/-- First-match lookup in a string-valued association list (`MWAA_LOGGERS[k]`,
`Option.none` modelling the `KeyError`). -/
def lookupStr (d : List (String × String)) (k : String) : Option String :=
  match d with
  | [] => Option.none
  | (k', v) :: rest => if k' = k then Option.some v else lookupStr rest k

/-- Constants this module imports from Airflow and from sibling MWAA modules.
The module only stores them verbatim into the configuration, so they are
opaque parameters here: every theorem holds for all values. -/
structure HostParams where
  /-- `str(os.path.expanduser(BASE_LOG_FOLDER))`. -/
  base_log_folder : String
  /-- `os.path.basename(DAG_PROCESSOR_MANAGER_LOG_LOCATION)`. -/
  dag_processor_manager_log_basename : String
  /-- `PROCESSOR_FILENAME_TEMPLATE`. -/
  processor_filename_template : String
  /-- `qualified_name(cloudwatch_handlers.TaskLogHandler)`. -/
  task_log_handler_class : String
  /-- `qualified_name(cloudwatch_handlers.DagProcessorManagerLogHandler)`. -/
  dag_processor_manager_log_handler_class : String
  /-- `qualified_name(cloudwatch_handlers.DagProcessingLogHandler)`. -/
  dag_processing_log_handler_class : String
  /-- `qualified_name(cloudwatch_handlers.SubprocessLogHandler)`. -/
  subprocess_log_handler_class : String

/-- `LOGGING_CONFIG = {**DEFAULT_LOGGING_CONFIG}` (line 38): the initial
configuration is a copy of Airflow's default. -/
def LOGGING_CONFIG_init (DEFAULT_LOGGING_CONFIG : Dict) : Dict :=
  DEFAULT_LOGGING_CONFIG

/-- `_get_kms_key_arn` (line 43). -/
def _get_kms_key_arn (env : Env) : Option String :=
  env "MWAA__CORE__KMS_KEY_ARN"

/-- `_get_mwaa_logging_env_vars` (lines 47-63).  `logging.getLevelName
(logging.INFO)` is the Python stdlib constant `"INFO"`. -/
def _get_mwaa_logging_env_vars (env : Env) (source : String) :
    Option String × String × Bool :=
  let log_group_arn :=
    env ("MWAA__LOGGING__AIRFLOW_" ++ py_upper source ++ "_LOG_GROUP_ARN")
  let log_level :=
    (env ("MWAA__LOGGING__AIRFLOW_" ++ py_upper source ++ "_LOG_LEVEL")).getD "INFO"
  let logging_enabled :=
    (env ("MWAA__LOGGING__AIRFLOW_" ++ py_upper source ++ "_LOGS_ENABLED")).getD "false"
  (log_group_arn, log_level, py_lower logging_enabled == "true")

/-- The handler dict assigned to `LOGGING_CONFIG["handlers"]["task"]`
(lines 70-78); `kms` is the value of `_get_kms_key_arn()` at the call site. -/
def task_handler_dict (hp : HostParams) (kms log_group_arn : Option String)
    (logging_enabled : Bool) : PyVal :=
  PyVal.dict [
    ("class", PyVal.str hp.task_log_handler_class),
    ("formatter", PyVal.str "airflow"),
    ("filters", PyVal.list ["mask_secrets"]),
    ("base_log_folder", PyVal.str hp.base_log_folder),
    ("log_group_arn", optStrVal log_group_arn),
    ("kms_key_arn", optStrVal kms),
    ("enabled", PyVal.boolV logging_enabled)
  ]

/-- `_configure_task_logging` (lines 66-83).  The triple returned by
`_get_mwaa_logging_env_vars` is `(log_group_arn, log_level, logging_enabled)`;
it is accessed by projections `.1`, `.2.1`, `.2.2` below. -/
def _configure_task_logging (hp : HostParams) (env : Env) (cfg : Dict) :
    Option Dict :=
  let v := _get_mwaa_logging_env_vars env "task"
  if truthy v.1 then
    match set_in cfg "handlers" "task"
        (task_handler_dict hp (_get_kms_key_arn env) v.1 v.2.2) with
    | Option.some cfg1 =>
        update_in cfg1 "loggers" "airflow.task" [("level", PyVal.str v.2.1)]
    | Option.none => Option.none
  else Option.some cfg

/-- The handler dict assigned to
`LOGGING_CONFIG["handlers"]["processor_manager"]` (lines 92-99). -/
def processor_manager_handler_dict (hp : HostParams)
    (kms log_group_arn : Option String) (logging_enabled : Bool) : PyVal :=
  PyVal.dict [
    ("class", PyVal.str hp.dag_processor_manager_log_handler_class),
    ("formatter", PyVal.str "airflow"),
    ("log_group_arn", optStrVal log_group_arn),
    ("kms_key_arn", optStrVal kms),
    ("stream_name", PyVal.str hp.dag_processor_manager_log_basename),
    ("enabled", PyVal.boolV logging_enabled)
  ]

/-- The handler dict assigned to `LOGGING_CONFIG["handlers"]["processor"]`
(lines 107-114). -/
def processor_handler_dict (hp : HostParams) (kms log_group_arn : Option String)
    (logging_enabled : Bool) : PyVal :=
  PyVal.dict [
    ("class", PyVal.str hp.dag_processing_log_handler_class),
    ("formatter", PyVal.str "airflow"),
    ("log_group_arn", optStrVal log_group_arn),
    ("kms_key_arn", optStrVal kms),
    ("stream_name_template", PyVal.str hp.processor_filename_template),
    ("enabled", PyVal.boolV logging_enabled)
  ]

/-- The logger dict built for the DAG-processing and subprocess loggers:
`{"handlers": [h], "level": lvl, "propagate": False}`. -/
def simple_logger_dict (h lvl : String) : PyVal :=
  PyVal.dict [
    ("handlers", PyVal.list [h]),
    ("level", PyVal.str lvl),
    ("propagate", PyVal.boolV false)
  ]

/-- `_configure_dag_processing_logging` (lines 86-119). -/
def _configure_dag_processing_logging (hp : HostParams) (env : Env)
    (cfg : Dict) : Option Dict :=
  let v := _get_mwaa_logging_env_vars env "dagprocessor"
  if truthy v.1 then do
    let cfg ← set_in cfg "handlers" "processor_manager"
      (processor_manager_handler_dict hp (_get_kms_key_arn env) v.1 v.2.2)
    let cfg ← set_in cfg "loggers" "airflow.processor_manager"
      (simple_logger_dict "processor_manager" v.2.1)
    let cfg ← set_in cfg "handlers" "processor"
      (processor_handler_dict hp (_get_kms_key_arn env) v.1 v.2.2)
    let cfg ← set_in cfg "loggers" "airflow.processor"
      (simple_logger_dict "processor" v.2.1)
    pure cfg
  else Option.some cfg

/-- The handler dict assigned to
`LOGGING_CONFIG["handlers"][handler_name]` by
`_configure_subprocesses_logging` (lines 131-140). -/
def subprocess_handler_dict (hp : HostParams) (subprocess_name : String)
    (kms log_group_arn : Option String) (logging_enabled : Bool) : PyVal :=
  PyVal.dict [
    ("class", PyVal.str hp.subprocess_log_handler_class),
    ("formatter", PyVal.str "airflow"),
    ("filters", PyVal.list ["mask_secrets"]),
    ("log_group_arn", optStrVal log_group_arn),
    ("kms_key_arn", optStrVal kms),
    ("stream_name_prefix", PyVal.str (py_lower subprocess_name)),
    ("logs_source", PyVal.str subprocess_name),
    ("enabled", PyVal.boolV logging_enabled)
  ]

/-- Lines 161-168: the fixed MWAA logger names. -/
def SCHEDULER_LOGGER_NAME : String := "mwaa.scheduler"

/-- Line 162. -/
def SCHEDULER_REQUIREMENTS_LOGGER_NAME : String := "mwaa.scheduler_requirements"

/-- Line 163. -/
def TRIGGERER_LOGGER_NAME : String := "mwaa.triggerer"

/-- Line 164. -/
def TRIGGERER_REQUIREMENTS_LOGGER_NAME : String := "mwaa.triggerer_requirements"

/-- Line 165. -/
def WEBSERVER_LOGGER_NAME : String := "mwaa.webserver"

/-- Line 166. -/
def WEBSERVER_REQUIREMENTS_LOGGER_NAME : String := "mwaa.webserver_requirements"

/-- Line 167. -/
def WORKER_LOGGER_NAME : String := "mwaa.worker"

/-- Line 168. -/
def WORKER_REQUIREMENTS_LOGGER_NAME : String := "mwaa.worker_requirements"

/-- `MWAA_LOGGERS` (lines 170-179). -/
def MWAA_LOGGERS : List (String × String) := [
  ("scheduler", SCHEDULER_LOGGER_NAME),
  ("scheduler_requirements", SCHEDULER_REQUIREMENTS_LOGGER_NAME),
  ("triggerer", TRIGGERER_LOGGER_NAME),
  ("triggerer_requirements", TRIGGERER_REQUIREMENTS_LOGGER_NAME),
  ("webserver", WEBSERVER_LOGGER_NAME),
  ("webserver_requirements", WEBSERVER_REQUIREMENTS_LOGGER_NAME),
  ("worker", WORKER_LOGGER_NAME),
  ("worker_requirements", WORKER_REQUIREMENTS_LOGGER_NAME)
]

/-- `_configure_subprocesses_logging` (lines 122-146).  The `MWAA_LOGGERS`
lookup happens before the truthiness test, exactly as in the source. -/
def _configure_subprocesses_logging (hp : HostParams) (env : Env)
    (subprocess_name : String) (log_group_arn : Option String)
    (log_level : String) (logging_enabled : Bool) (cfg : Dict) : Option Dict :=
  match lookupStr MWAA_LOGGERS (py_lower subprocess_name) with
  | Option.none => Option.none
  | Option.some logger_name =>
    let handler_name := replace_dot_with_underscore logger_name
    if truthy log_group_arn then do
      let cfg ← set_in cfg "handlers" handler_name
        (subprocess_handler_dict hp subprocess_name (_get_kms_key_arn env)
          log_group_arn logging_enabled)
      let cfg ← set_in cfg "loggers" logger_name
        (simple_logger_dict handler_name log_level)
      pure cfg
    else Option.some cfg

/-- The body of the `for comp in [...]` loop in `_configure` (lines 155-158):
read the environment triple once for `comp`, then configure both the
component logger and its `_requirements` companion from it. -/
def configure_comp (hp : HostParams) (env : Env) (comp : String) (cfg : Dict) :
    Option Dict :=
  let v := _get_mwaa_logging_env_vars env comp
  do
    let cfg ← _configure_subprocesses_logging hp env comp v.1 v.2.1 v.2.2 cfg
    let cfg ← _configure_subprocesses_logging hp env (comp ++ "_requirements")
      v.1 v.2.1 v.2.2 cfg
    pure cfg

/-- The component list iterated by `_configure`'s loop (line 155). -/
def subprocess_components : List String :=
  ["Worker", "Scheduler", "WebServer", "Triggerer"]

/-- `_configure` (lines 149-158). -/
def _configure (hp : HostParams) (env : Env) (cfg : Dict) : Option Dict := do
  let cfg ← _configure_task_logging hp env cfg
  let cfg ← _configure_dag_processing_logging hp env cfg
  subprocess_components.foldlM (fun cfg comp => configure_comp hp env comp cfg) cfg

/-! ## Basic dictionary lemmas -/

theorem dget_dset_self (d : Dict) (k : String) (v : PyVal) :
    dget (dset d k v) k = Option.some v := by
  induction d with
  | nil => simp [dget, dset]
  | cons p rest ih =>
    obtain ⟨k', v'⟩ := p
    by_cases h : k' = k
    · simp [dget, dset, h]
    · simp [dget, dset, h, ih]

theorem dget_dset_ne (d : Dict) (k : String) (v : PyVal) (k' : String)
    (hne : k' ≠ k) : dget (dset d k v) k' = dget d k' := by
  have hne' : k ≠ k' := fun h => hne h.symm
  induction d with
  | nil => simp [dget, dset, hne']
  | cons p rest ih =>
    obtain ⟨k'', v''⟩ := p
    by_cases h : k'' = k
    · subst h
      simp [dget, dset, hne']
    · by_cases h' : k'' = k'
      · simp [dget, dset, h, h', hne]
      · simp [dget, dset, h, h', ih]

theorem isSome_dget_dset (d : Dict) (k : String) (v : PyVal) (k' : String)
    (h : (dget d k').isSome) : (dget (dset d k v) k').isSome := by
  by_cases hk : k' = k
  · subst hk
    simp [dget_dset_self]
  · rwa [dget_dset_ne d k v k' hk]

theorem set_in_eq (cfg : Dict) (k1 k2 : String) (v : PyVal) (D : Dict)
    (h : dget cfg k1 = Option.some (PyVal.dict D)) :
    set_in cfg k1 k2 v =
      Option.some (dset cfg k1 (PyVal.dict (dset D k2 v))) := by
  simp [set_in, h]

theorem update_in_eq (cfg : Dict) (k1 k2 : String) (u : Dict) (D E : Dict)
    (h1 : dget cfg k1 = Option.some (PyVal.dict D))
    (h2 : dget D k2 = Option.some (PyVal.dict E)) :
    update_in cfg k1 k2 u =
      Option.some (dset cfg k1 (PyVal.dict (dset D k2
        (PyVal.dict (dict_update E u))))) := by
  simp [update_in, h1, h2]

/-! ## Step frames

A `StepFrame cfg H L cfg' H' L' hks lks` records that a configuration step
turned `cfg` (whose `"handlers"`/`"loggers"` entries are the dicts `H`/`L`)
into `cfg'` (with entries `H'`/`L'`), touching no top-level key other than
`"handlers"`/`"loggers"`, no handler key outside `hks`, and no logger key
outside `lks`, while never removing a binding. -/

structure StepFrame (cfg H L cfg' H' L' : Dict) (hks lks : List String) :
    Prop where
  hH' : dget cfg' "handlers" = Option.some (PyVal.dict H')
  hL' : dget cfg' "loggers" = Option.some (PyVal.dict L')
  top : ∀ k, k ≠ "handlers" → k ≠ "loggers" → dget cfg' k = dget cfg k
  hframe : ∀ k, k ∉ hks → dget H' k = dget H k
  lframe : ∀ k, k ∉ lks → dget L' k = dget L k
  topmono : ∀ k, (dget cfg k).isSome → (dget cfg' k).isSome
  hmono : ∀ k, (dget H k).isSome → (dget H' k).isSome
  lmono : ∀ k, (dget L k).isSome → (dget L' k).isSome

theorem StepFrame.id_of (cfg H L : Dict)
    (hH : dget cfg "handlers" = Option.some (PyVal.dict H))
    (hL : dget cfg "loggers" = Option.some (PyVal.dict L)) :
    StepFrame cfg H L cfg H L [] [] :=
  ⟨hH, hL, fun _ _ _ => rfl, fun _ _ => rfl, fun _ _ => rfl,
   fun _ h => h, fun _ h => h, fun _ h => h⟩

theorem StepFrame.comp {cfg H L cfg1 H1 L1 cfg2 H2 L2 : Dict}
    {hks1 lks1 hks2 lks2 : List String}
    (f : StepFrame cfg H L cfg1 H1 L1 hks1 lks1)
    (g : StepFrame cfg1 H1 L1 cfg2 H2 L2 hks2 lks2) :
    StepFrame cfg H L cfg2 H2 L2 (hks1 ++ hks2) (lks1 ++ lks2) := by
  refine ⟨g.hH', g.hL', ?_, ?_, ?_, ?_, ?_, ?_⟩
  · intro k h1 h2
    rw [g.top k h1 h2, f.top k h1 h2]
  · intro k hk
    rw [List.mem_append] at hk
    push_neg at hk
    rw [g.hframe k hk.2, f.hframe k hk.1]
  · intro k hk
    rw [List.mem_append] at hk
    push_neg at hk
    rw [g.lframe k hk.2, f.lframe k hk.1]
  · exact fun k h => g.topmono k (f.topmono k h)
  · exact fun k h => g.hmono k (f.hmono k h)
  · exact fun k h => g.lmono k (f.lmono k h)

theorem StepFrame.weaken {cfg H L cfg' H' L' : Dict}
    {hks lks hks' lks' : List String}
    (f : StepFrame cfg H L cfg' H' L' hks lks)
    (hh : ∀ k, k ∈ hks → k ∈ hks') (hl : ∀ k, k ∈ lks → k ∈ lks') :
    StepFrame cfg H L cfg' H' L' hks' lks' :=
  ⟨f.hH', f.hL', f.top,
   fun k hk => f.hframe k (fun hmem => hk (hh k hmem)),
   fun k hk => f.lframe k (fun hmem => hk (hl k hmem)),
   f.topmono, f.hmono, f.lmono⟩

/-! ## Per-source outcome predicates

Each describes what one configuration step guarantees about the final
`"handlers"` dict `H'` and `"loggers"` dict `L'`, relative to the dicts
`H`/`L` it started from. -/

/-- Effect of `_configure_task_logging`: if the task log group ARN is truthy,
the `"task"` handler is the CloudWatch entry and the `"airflow.task"` logger
(initially `T`) has been `update`d with the log level; otherwise both are
untouched. -/
def task_outcome (hp : HostParams) (env : Env) (T H L H' L' : Dict) : Prop :=
  let v := _get_mwaa_logging_env_vars env "task"
  if truthy v.1 then
    dget H' "task" =
      Option.some (task_handler_dict hp (_get_kms_key_arn env) v.1 v.2.2) ∧
    dget L' "airflow.task" =
      Option.some (PyVal.dict (dict_update T [("level", PyVal.str v.2.1)]))
  else
    dget H' "task" = dget H "task" ∧
    dget L' "airflow.task" = dget L "airflow.task"

/-- Transport a task outcome along later steps that do not touch the
`"task"` handler or the `"airflow.task"` logger. -/
theorem task_outcome_mono {hp : HostParams} {env : Env}
    {T H L H1 L1 H2 L2 : Dict} (h : task_outcome hp env T H L H1 L1)
    (eh : dget H2 "task" = dget H1 "task")
    (el : dget L2 "airflow.task" = dget L1 "airflow.task") :
    task_outcome hp env T H L H2 L2 := by
  unfold task_outcome at h ⊢
  cases htru : truthy (_get_mwaa_logging_env_vars env "task").1 with
  | false =>
    simp only [htru, if_false, Bool.false_eq_true] at h ⊢
    exact ⟨eh.trans h.1, el.trans h.2⟩
  | true =>
    simp only [htru, if_true] at h ⊢
    exact ⟨eh.trans h.1, el.trans h.2⟩

/-- The behaviour of `_configure_task_logging` on a well-shaped
configuration: it succeeds, touches only the `"task"` handler and the
`"airflow.task"` logger, and realizes `task_outcome`. -/
theorem task_step (hp : HostParams) (env : Env) (cfg H L T : Dict)
    (hH : dget cfg "handlers" = Option.some (PyVal.dict H))
    (hL : dget cfg "loggers" = Option.some (PyVal.dict L))
    (hT : dget L "airflow.task" = Option.some (PyVal.dict T)) :
    ∃ cfg' H' L', _configure_task_logging hp env cfg = Option.some cfg' ∧
      StepFrame cfg H L cfg' H' L' ["task"] ["airflow.task"] ∧
      task_outcome hp env T H L H' L' := by
  cases htru : truthy (_get_mwaa_logging_env_vars env "task").1 with
  | false =>
    refine ⟨cfg, H, L, ?_, ?_, ?_⟩
    · simp [_configure_task_logging, htru]
    · exact (StepFrame.id_of cfg H L hH hL).weaken (by simp) (by simp)
    · unfold task_outcome
      simp [htru]
  | true =>
    set v := _get_mwaa_logging_env_vars env "task" with hv
    set td := task_handler_dict hp (_get_kms_key_arn env) v.1 v.2.2 with htd
    set H' := dset H "task" td with hHd
    set cfg1 := dset cfg "handlers" (PyVal.dict H') with hcfg1
    set L' := dset L "airflow.task"
      (PyVal.dict (dict_update T [("level", PyVal.str v.2.1)])) with hLd
    set cfg2 := dset cfg1 "loggers" (PyVal.dict L') with hcfg2
    have hset : set_in cfg "handlers" "task" td = Option.some cfg1 :=
      set_in_eq cfg "handlers" "task" td H hH
    have hcfg1L : dget cfg1 "loggers" = Option.some (PyVal.dict L) := by
      rw [hcfg1, dget_dset_ne _ _ _ _ (by decide), hL]
    have hupd : update_in cfg1 "loggers" "airflow.task"
        [("level", PyVal.str v.2.1)] = Option.some cfg2 :=
      update_in_eq cfg1 "loggers" "airflow.task" _ L T hcfg1L hT
    refine ⟨cfg2, H', L', ?_, ?_, ?_⟩
    · simp only [_configure_task_logging, ← hv, htru, if_pos, ← htd, hset, hupd]
    · refine ⟨?_, ?_, ?_, ?_, ?_, ?_, ?_, ?_⟩
      · rw [hcfg2, dget_dset_ne _ _ _ _ (by decide), hcfg1, dget_dset_self]
      · rw [hcfg2, dget_dset_self]
      · intro k h1 h2
        rw [hcfg2, dget_dset_ne _ _ _ _ h2, hcfg1, dget_dset_ne _ _ _ _ h1]
      · intro k hk
        simp only [List.mem_singleton] at hk
        rw [hHd, dget_dset_ne _ _ _ _ hk]
      · intro k hk
        simp only [List.mem_singleton] at hk
        rw [hLd, dget_dset_ne _ _ _ _ hk]
      · intro k hk
        by_cases h1 : k = "handlers"
        · subst h1
          rw [hcfg2, dget_dset_ne _ _ _ _ (by decide), hcfg1, dget_dset_self]
          rfl
        · by_cases h2 : k = "loggers"
          · subst h2
            rw [hcfg2, dget_dset_self]
            rfl
          · rw [hcfg2, dget_dset_ne _ _ _ _ h2, hcfg1, dget_dset_ne _ _ _ _ h1]
            exact hk
      · exact fun k h => isSome_dget_dset H "task" td k h
      · exact fun k h => isSome_dget_dset L "airflow.task" _ k h
    · unfold task_outcome
      simp only [← hv, htru, if_pos]
      constructor
      · rw [hHd, dget_dset_self]
      · rw [hLd, dget_dset_self]

/-- Effect of `_configure_dag_processing_logging`: if the dagprocessor log
group ARN is truthy, the `"processor_manager"`/`"processor"` handlers and the
`"airflow.processor_manager"`/`"airflow.processor"` loggers are the CloudWatch
entries; otherwise all four are untouched. -/
def dag_outcome (hp : HostParams) (env : Env) (H L H' L' : Dict) : Prop :=
  let v := _get_mwaa_logging_env_vars env "dagprocessor"
  if truthy v.1 then
    dget H' "processor_manager" =
      Option.some (processor_manager_handler_dict hp (_get_kms_key_arn env)
        v.1 v.2.2) ∧
    dget L' "airflow.processor_manager" =
      Option.some (simple_logger_dict "processor_manager" v.2.1) ∧
    dget H' "processor" =
      Option.some (processor_handler_dict hp (_get_kms_key_arn env) v.1 v.2.2) ∧
    dget L' "airflow.processor" =
      Option.some (simple_logger_dict "processor" v.2.1)
  else
    dget H' "processor_manager" = dget H "processor_manager" ∧
    dget L' "airflow.processor_manager" = dget L "airflow.processor_manager" ∧
    dget H' "processor" = dget H "processor" ∧
    dget L' "airflow.processor" = dget L "airflow.processor"

/-- Transport a dag-processing outcome along steps that do not touch its
four keys, on both the pre- and the post-side. -/
theorem dag_outcome_congr {hp : HostParams} {env : Env}
    {Ha La H1 L1 Hb Lb H2 L2 : Dict} (h : dag_outcome hp env Ha La H1 L1)
    (e1 : dget H2 "processor_manager" = dget H1 "processor_manager")
    (e2 : dget L2 "airflow.processor_manager" = dget L1 "airflow.processor_manager")
    (e3 : dget H2 "processor" = dget H1 "processor")
    (e4 : dget L2 "airflow.processor" = dget L1 "airflow.processor")
    (f1 : dget Ha "processor_manager" = dget Hb "processor_manager")
    (f2 : dget La "airflow.processor_manager" = dget Lb "airflow.processor_manager")
    (f3 : dget Ha "processor" = dget Hb "processor")
    (f4 : dget La "airflow.processor" = dget Lb "airflow.processor") :
    dag_outcome hp env Hb Lb H2 L2 := by
  unfold dag_outcome at h ⊢
  cases htru : truthy (_get_mwaa_logging_env_vars env "dagprocessor").1 with
  | false =>
    simp only [htru, if_false, Bool.false_eq_true] at h ⊢
    exact ⟨e1.trans (h.1.trans f1), e2.trans (h.2.1.trans f2),
      e3.trans (h.2.2.1.trans f3), e4.trans (h.2.2.2.trans f4)⟩
  | true =>
    simp only [htru, if_true] at h ⊢
    exact ⟨e1.trans h.1, e2.trans h.2.1, e3.trans h.2.2.1, e4.trans h.2.2.2⟩

/-- The behaviour of `_configure_dag_processing_logging` on a well-shaped
configuration. -/
theorem dag_step (hp : HostParams) (env : Env) (cfg H L : Dict)
    (hH : dget cfg "handlers" = Option.some (PyVal.dict H))
    (hL : dget cfg "loggers" = Option.some (PyVal.dict L)) :
    ∃ cfg' H' L',
      _configure_dag_processing_logging hp env cfg = Option.some cfg' ∧
      StepFrame cfg H L cfg' H' L' ["processor_manager", "processor"]
        ["airflow.processor_manager", "airflow.processor"] ∧
      dag_outcome hp env H L H' L' := by
  cases htru : truthy (_get_mwaa_logging_env_vars env "dagprocessor").1 with
  | false =>
    refine ⟨cfg, H, L, ?_, ?_, ?_⟩
    · simp [_configure_dag_processing_logging, htru]
    · exact (StepFrame.id_of cfg H L hH hL).weaken (by simp) (by simp)
    · unfold dag_outcome
      simp [htru]
  | true =>
    set v := _get_mwaa_logging_env_vars env "dagprocessor" with hv
    set pmd := processor_manager_handler_dict hp (_get_kms_key_arn env)
      v.1 v.2.2 with hpmd
    set pd := processor_handler_dict hp (_get_kms_key_arn env) v.1 v.2.2 with hpd
    set plog1 := simple_logger_dict "processor_manager" v.2.1 with hplog1
    set plog2 := simple_logger_dict "processor" v.2.1 with hplog2
    set H1 := dset H "processor_manager" pmd with hH1
    set H' := dset H1 "processor" pd with hHd
    set L1 := dset L "airflow.processor_manager" plog1 with hL1
    set L' := dset L1 "airflow.processor" plog2 with hLd
    set cfg1 := dset cfg "handlers" (PyVal.dict H1) with hcfg1
    set cfg2 := dset cfg1 "loggers" (PyVal.dict L1) with hcfg2
    set cfg3 := dset cfg2 "handlers" (PyVal.dict H') with hcfg3
    set cfg4 := dset cfg3 "loggers" (PyVal.dict L') with hcfg4
    have hset1 : set_in cfg "handlers" "processor_manager" pmd =
        Option.some cfg1 := set_in_eq cfg _ _ _ H hH
    have hc1L : dget cfg1 "loggers" = Option.some (PyVal.dict L) := by
      rw [hcfg1, dget_dset_ne _ _ _ _ (by decide), hL]
    have hset2 : set_in cfg1 "loggers" "airflow.processor_manager" plog1 =
        Option.some cfg2 := set_in_eq cfg1 _ _ _ L hc1L
    have hc2H : dget cfg2 "handlers" = Option.some (PyVal.dict H1) := by
      rw [hcfg2, dget_dset_ne _ _ _ _ (by decide), hcfg1, dget_dset_self]
    have hset3 : set_in cfg2 "handlers" "processor" pd = Option.some cfg3 := by
      rw [set_in_eq cfg2 _ _ _ H1 hc2H, hcfg3, hHd]
    have hc3L : dget cfg3 "loggers" = Option.some (PyVal.dict L1) := by
      rw [hcfg3, dget_dset_ne _ _ _ _ (by decide), hcfg2, dget_dset_self]
    have hset4 : set_in cfg3 "loggers" "airflow.processor" plog2 =
        Option.some cfg4 := by
      rw [set_in_eq cfg3 _ _ _ L1 hc3L, hcfg4, hLd]
    refine ⟨cfg4, H', L', ?_, ?_, ?_⟩
    · simp only [_configure_dag_processing_logging, ← hv, htru, if_pos,
        ← hpmd, ← hpd, ← hplog1, ← hplog2, hset1, hset2, hset3, hset4,
        Option.bind_eq_bind, Option.some_bind, Option.pure_def]
    · refine ⟨?_, ?_, ?_, ?_, ?_, ?_, ?_, ?_⟩
      · rw [hcfg4, dget_dset_ne _ _ _ _ (by decide), hcfg3, dget_dset_self]
      · rw [hcfg4, dget_dset_self]
      · intro k h1 h2
        rw [hcfg4, dget_dset_ne _ _ _ _ h2, hcfg3, dget_dset_ne _ _ _ _ h1,
          hcfg2, dget_dset_ne _ _ _ _ h2, hcfg1, dget_dset_ne _ _ _ _ h1]
      · intro k hk
        simp only [List.mem_cons, List.mem_singleton] at hk
        push_neg at hk
        rw [hHd, dget_dset_ne _ _ _ _ hk.2.1, hH1, dget_dset_ne _ _ _ _ hk.1]
      · intro k hk
        simp only [List.mem_cons, List.mem_singleton] at hk
        push_neg at hk
        rw [hLd, dget_dset_ne _ _ _ _ hk.2.1, hL1, dget_dset_ne _ _ _ _ hk.1]
      · intro k hk
        by_cases h1 : k = "handlers"
        · subst h1
          rw [hcfg4, dget_dset_ne _ _ _ _ (by decide), hcfg3, dget_dset_self]
          rfl
        · by_cases h2 : k = "loggers"
          · subst h2
            rw [hcfg4, dget_dset_self]
            rfl
          · rw [hcfg4, dget_dset_ne _ _ _ _ h2, hcfg3, dget_dset_ne _ _ _ _ h1,
              hcfg2, dget_dset_ne _ _ _ _ h2, hcfg1, dget_dset_ne _ _ _ _ h1]
            exact hk
      · intro k hk
        exact isSome_dget_dset H1 "processor" pd k
          (isSome_dget_dset H "processor_manager" pmd k hk)
      · intro k hk
        exact isSome_dget_dset L1 "airflow.processor" plog2 k
          (isSome_dget_dset L "airflow.processor_manager" plog1 k hk)
    · unfold dag_outcome
      simp only [← hv, htru, if_true]
      refine ⟨?_, ?_, ?_, ?_⟩
      · rw [hHd, dget_dset_ne _ _ _ _ (by decide), hH1, dget_dset_self]
      · rw [hLd, dget_dset_ne _ _ _ _ (by decide), hL1, dget_dset_self]
      · rw [hHd, dget_dset_self]
      · rw [hLd, dget_dset_self]

/-- Effect of one `_configure_subprocesses_logging` call with resolved logger
name `lname`: if the passed ARN is truthy, the handler
`lname.replace(".", "_")` and the logger `lname` are the CloudWatch entries;
otherwise both are untouched. -/
def sub_outcome (hp : HostParams) (env : Env) (n lname : String)
    (arn : Option String) (lvl : String) (en : Bool) (H L H' L' : Dict) :
    Prop :=
  let handler_name := replace_dot_with_underscore lname
  if truthy arn then
    dget H' handler_name =
      Option.some (subprocess_handler_dict hp n (_get_kms_key_arn env) arn en) ∧
    dget L' lname = Option.some (simple_logger_dict handler_name lvl)
  else
    dget H' handler_name = dget H handler_name ∧ dget L' lname = dget L lname

/-- Transport a subprocess outcome along steps that do not touch its two
keys, on both the pre- and the post-side. -/
theorem sub_outcome_congr {hp : HostParams} {env : Env} {n lname : String}
    {arn : Option String} {lvl : String} {en : Bool}
    {Ha La H1 L1 Hb Lb H2 L2 : Dict}
    (h : sub_outcome hp env n lname arn lvl en Ha La H1 L1)
    (eh : dget H2 (replace_dot_with_underscore lname) =
      dget H1 (replace_dot_with_underscore lname))
    (el : dget L2 lname = dget L1 lname)
    (fh : dget Ha (replace_dot_with_underscore lname) =
      dget Hb (replace_dot_with_underscore lname))
    (fl : dget La lname = dget Lb lname) :
    sub_outcome hp env n lname arn lvl en Hb Lb H2 L2 := by
  unfold sub_outcome at h ⊢
  cases htru : truthy arn with
  | false =>
    simp only [htru, if_false, Bool.false_eq_true] at h ⊢
    exact ⟨eh.trans (h.1.trans fh), el.trans (h.2.trans fl)⟩
  | true =>
    simp only [htru, if_true] at h ⊢
    exact ⟨eh.trans h.1, el.trans h.2⟩

/-- The behaviour of one `_configure_subprocesses_logging` call on a
well-shaped configuration, given that the subprocess name resolves in
`MWAA_LOGGERS`. -/
theorem sub_step (hp : HostParams) (env : Env) (n : String)
    (arn : Option String) (lvl : String) (en : Bool) (cfg H L : Dict)
    (lname : String)
    (hlook : lookupStr MWAA_LOGGERS (py_lower n) = Option.some lname)
    (hH : dget cfg "handlers" = Option.some (PyVal.dict H))
    (hL : dget cfg "loggers" = Option.some (PyVal.dict L)) :
    ∃ cfg' H' L',
      _configure_subprocesses_logging hp env n arn lvl en cfg =
        Option.some cfg' ∧
      StepFrame cfg H L cfg' H' L' [replace_dot_with_underscore lname]
        [lname] ∧
      sub_outcome hp env n lname arn lvl en H L H' L' := by
  cases htru : truthy arn with
  | false =>
    refine ⟨cfg, H, L, ?_, ?_, ?_⟩
    · simp [_configure_subprocesses_logging, hlook, htru]
    · exact (StepFrame.id_of cfg H L hH hL).weaken (by simp) (by simp)
    · unfold sub_outcome
      simp [htru]
  | true =>
    set hname := replace_dot_with_underscore lname with hhname
    set sd := subprocess_handler_dict hp n (_get_kms_key_arn env) arn en
      with hsd
    set slog := simple_logger_dict hname lvl with hslog
    set H' := dset H hname sd with hHd
    set L' := dset L lname slog with hLd
    set cfg1 := dset cfg "handlers" (PyVal.dict H') with hcfg1
    set cfg2 := dset cfg1 "loggers" (PyVal.dict L') with hcfg2
    have hset1 : set_in cfg "handlers" hname sd = Option.some cfg1 :=
      set_in_eq cfg _ _ _ H hH
    have hc1L : dget cfg1 "loggers" = Option.some (PyVal.dict L) := by
      rw [hcfg1, dget_dset_ne _ _ _ _ (by decide), hL]
    have hset2 : set_in cfg1 "loggers" lname slog = Option.some cfg2 :=
      set_in_eq cfg1 _ _ _ L hc1L
    refine ⟨cfg2, H', L', ?_, ?_, ?_⟩
    · simp only [_configure_subprocesses_logging, hlook, ← hhname, htru,
        if_pos, ← hsd, ← hslog, hset1, hset2, Option.bind_eq_bind,
        Option.some_bind, Option.pure_def]
    · refine ⟨?_, ?_, ?_, ?_, ?_, ?_, ?_, ?_⟩
      · rw [hcfg2, dget_dset_ne _ _ _ _ (by decide), hcfg1, dget_dset_self]
      · rw [hcfg2, dget_dset_self]
      · intro k h1 h2
        rw [hcfg2, dget_dset_ne _ _ _ _ h2, hcfg1, dget_dset_ne _ _ _ _ h1]
      · intro k hk
        simp only [List.mem_singleton] at hk
        rw [hHd, dget_dset_ne _ _ _ _ hk]
      · intro k hk
        simp only [List.mem_singleton] at hk
        rw [hLd, dget_dset_ne _ _ _ _ hk]
      · intro k hk
        by_cases h1 : k = "handlers"
        · subst h1
          rw [hcfg2, dget_dset_ne _ _ _ _ (by decide), hcfg1, dget_dset_self]
          rfl
        · by_cases h2 : k = "loggers"
          · subst h2
            rw [hcfg2, dget_dset_self]
            rfl
          · rw [hcfg2, dget_dset_ne _ _ _ _ h2, hcfg1, dget_dset_ne _ _ _ _ h1]
            exact hk
      · exact fun k h => isSome_dget_dset H hname sd k h
      · exact fun k h => isSome_dget_dset L lname slog k h
    · unfold sub_outcome
      simp only [← hhname, htru, if_true]
      exact ⟨by rw [hHd, dget_dset_self], by rw [hLd, dget_dset_self]⟩

/-- Effect of one iteration of `_configure`'s component loop: both the
component logger and its `_requirements` companion are configured from the
single environment triple read for `comp`. -/
def comp_outcome (hp : HostParams) (env : Env) (comp : String)
    (H L H' L' : Dict) : Prop :=
  let v := _get_mwaa_logging_env_vars env comp
  (∀ lname, lookupStr MWAA_LOGGERS (py_lower comp) = Option.some lname →
    sub_outcome hp env comp lname v.1 v.2.1 v.2.2 H L H' L') ∧
  (∀ lname,
    lookupStr MWAA_LOGGERS (py_lower (comp ++ "_requirements")) =
      Option.some lname →
    sub_outcome hp env (comp ++ "_requirements") lname v.1 v.2.1 v.2.2
      H L H' L')

/-- Transport a component outcome along steps that do not touch its keys. -/
theorem comp_outcome_congr {hp : HostParams} {env : Env} {comp : String}
    {lname1 lname2 : String} {Ha La H1 L1 Hb Lb H2 L2 : Dict}
    (h1 : lookupStr MWAA_LOGGERS (py_lower comp) = Option.some lname1)
    (h2 : lookupStr MWAA_LOGGERS (py_lower (comp ++ "_requirements")) =
      Option.some lname2)
    (h : comp_outcome hp env comp Ha La H1 L1)
    (e1 : dget H2 (replace_dot_with_underscore lname1) =
      dget H1 (replace_dot_with_underscore lname1))
    (e2 : dget L2 lname1 = dget L1 lname1)
    (e3 : dget H2 (replace_dot_with_underscore lname2) =
      dget H1 (replace_dot_with_underscore lname2))
    (e4 : dget L2 lname2 = dget L1 lname2)
    (f1 : dget Ha (replace_dot_with_underscore lname1) =
      dget Hb (replace_dot_with_underscore lname1))
    (f2 : dget La lname1 = dget Lb lname1)
    (f3 : dget Ha (replace_dot_with_underscore lname2) =
      dget Hb (replace_dot_with_underscore lname2))
    (f4 : dget La lname2 = dget Lb lname2) :
    comp_outcome hp env comp Hb Lb H2 L2 := by
  obtain ⟨ha, hb⟩ := h
  constructor
  · intro ln hln
    rw [h1] at hln
    cases Option.some.inj hln
    exact sub_outcome_congr (ha lname1 h1) e1 e2 f1 f2
  · intro ln hln
    rw [h2] at hln
    cases Option.some.inj hln
    exact sub_outcome_congr (hb lname2 h2) e3 e4 f3 f4

/-- The behaviour of one iteration of `_configure`'s component loop on a
well-shaped configuration. -/
theorem comp_step (hp : HostParams) (env : Env) (comp : String)
    (cfg H L : Dict) (lname1 lname2 : String)
    (h1 : lookupStr MWAA_LOGGERS (py_lower comp) = Option.some lname1)
    (h2 : lookupStr MWAA_LOGGERS (py_lower (comp ++ "_requirements")) =
      Option.some lname2)
    (hne_l : lname1 ≠ lname2)
    (hne_h : replace_dot_with_underscore lname1 ≠
      replace_dot_with_underscore lname2)
    (hH : dget cfg "handlers" = Option.some (PyVal.dict H))
    (hL : dget cfg "loggers" = Option.some (PyVal.dict L)) :
    ∃ cfg' H' L', configure_comp hp env comp cfg = Option.some cfg' ∧
      StepFrame cfg H L cfg' H' L'
        [replace_dot_with_underscore lname1,
         replace_dot_with_underscore lname2] [lname1, lname2] ∧
      comp_outcome hp env comp H L H' L' := by
  obtain ⟨cfg1, H1, L1, heq1, hf1, ho1⟩ :=
    sub_step hp env comp (_get_mwaa_logging_env_vars env comp).1
      (_get_mwaa_logging_env_vars env comp).2.1
      (_get_mwaa_logging_env_vars env comp).2.2 cfg H L lname1 h1 hH hL
  obtain ⟨cfg2, H2, L2, heq2, hf2, ho2⟩ :=
    sub_step hp env (comp ++ "_requirements")
      (_get_mwaa_logging_env_vars env comp).1
      (_get_mwaa_logging_env_vars env comp).2.1
      (_get_mwaa_logging_env_vars env comp).2.2 cfg1 H1 L1 lname2 h2
      hf1.hH' hf1.hL'
  refine ⟨cfg2, H2, L2, ?_, ?_, ?_, ?_⟩
  · simp only [configure_comp, heq1, heq2, Option.bind_eq_bind,
      Option.some_bind, Option.pure_def]
  · exact hf1.comp hf2
  · intro ln hln
    rw [h1] at hln
    cases Option.some.inj hln
    refine sub_outcome_congr ho1 ?_ ?_ rfl rfl
    · exact hf2.hframe _ (by simpa using hne_h)
    · exact hf2.lframe _ (by simpa using hne_l)
  · intro ln hln
    rw [h2] at hln
    cases Option.some.inj hln
    refine sub_outcome_congr ho2 rfl rfl ?_ ?_
    · exact hf1.hframe _ (by simpa using hne_h.symm)
    · exact hf1.lframe _ (by simpa using hne_l.symm)

/-- The handler keys `_configure` may touch, in mutation order. -/
def mwaa_handler_keys : List String :=
  ["task", "processor_manager", "processor",
   "mwaa_worker", "mwaa_worker_requirements",
   "mwaa_scheduler", "mwaa_scheduler_requirements",
   "mwaa_webserver", "mwaa_webserver_requirements",
   "mwaa_triggerer", "mwaa_triggerer_requirements"]

/-- The logger keys `_configure` may touch, in mutation order. -/
def mwaa_logger_keys : List String :=
  ["airflow.task", "airflow.processor_manager", "airflow.processor",
   "mwaa.worker", "mwaa.worker_requirements",
   "mwaa.scheduler", "mwaa.scheduler_requirements",
   "mwaa.webserver", "mwaa.webserver_requirements",
   "mwaa.triggerer", "mwaa.triggerer_requirements"]

/-- Master characterization of `_configure` on a well-shaped initial
configuration (one whose `"handlers"`/`"loggers"` entries are dicts and whose
loggers contain a dict under `"airflow.task"`, as Airflow's
`DEFAULT_LOGGING_CONFIG` does): it succeeds, only ever touches the MWAA
handler/logger keys, removes nothing, and realizes the per-source
outcomes. -/
theorem configure_spec (hp : HostParams) (env : Env) (cfg H L T : Dict)
    (hH : dget cfg "handlers" = Option.some (PyVal.dict H))
    (hL : dget cfg "loggers" = Option.some (PyVal.dict L))
    (hT : dget L "airflow.task" = Option.some (PyVal.dict T)) :
    ∃ cfg' H' L', _configure hp env cfg = Option.some cfg' ∧
      StepFrame cfg H L cfg' H' L' mwaa_handler_keys mwaa_logger_keys ∧
      task_outcome hp env T H L H' L' ∧
      dag_outcome hp env H L H' L' ∧
      (∀ comp, comp ∈ subprocess_components →
        comp_outcome hp env comp H L H' L') := by
  obtain ⟨cfg1, H1, L1, eq1, f1, o1⟩ := task_step hp env cfg H L T hH hL hT
  obtain ⟨cfg2, H2, L2, eq2, f2, o2⟩ :=
    dag_step hp env cfg1 H1 L1 f1.hH' f1.hL'
  obtain ⟨cfg3, H3, L3, eq3, f3, o3⟩ :=
    comp_step hp env "Worker" cfg2 H2 L2 "mwaa.worker"
      "mwaa.worker_requirements" rfl rfl (by decide) (by decide)
      f2.hH' f2.hL'
  obtain ⟨cfg4, H4, L4, eq4, f4, o4⟩ :=
    comp_step hp env "Scheduler" cfg3 H3 L3 "mwaa.scheduler"
      "mwaa.scheduler_requirements" rfl rfl (by decide) (by decide)
      f3.hH' f3.hL'
  obtain ⟨cfg5, H5, L5, eq5, f5, o5⟩ :=
    comp_step hp env "WebServer" cfg4 H4 L4 "mwaa.webserver"
      "mwaa.webserver_requirements" rfl rfl (by decide) (by decide)
      f4.hH' f4.hL'
  obtain ⟨cfg6, H6, L6, eq6, f6, o6⟩ :=
    comp_step hp env "Triggerer" cfg5 H5 L5 "mwaa.triggerer"
      "mwaa.triggerer_requirements" rfl rfl (by decide) (by decide)
      f5.hH' f5.hL'
  have g5 := f5.comp f6
  have g4 := f4.comp g5
  have g3 := f3.comp g4
  have g2 := f2.comp g3
  refine ⟨cfg6, H6, L6, ?_, ?_, ?_, ?_, ?_⟩
  · simp only [_configure, subprocess_components, List.foldlM, eq1, eq2,
      eq3, eq4, eq5, eq6, Option.bind_eq_bind, Option.some_bind,
      Option.pure_def]
  · exact f1.comp g2
  · exact task_outcome_mono o1 (g2.hframe "task" (by decide))
      (g2.lframe "airflow.task" (by decide))
  · exact dag_outcome_congr o2
      (g3.hframe "processor_manager" (by decide))
      (g3.lframe "airflow.processor_manager" (by decide))
      (g3.hframe "processor" (by decide))
      (g3.lframe "airflow.processor" (by decide))
      (f1.hframe "processor_manager" (by decide))
      (f1.lframe "airflow.processor_manager" (by decide))
      (f1.hframe "processor" (by decide))
      (f1.lframe "airflow.processor" (by decide))
  · intro comp hcomp
    have g12 := f1.comp f2
    simp only [subprocess_components, List.mem_cons, List.mem_singleton,
      List.not_mem_nil, or_false] at hcomp
    rcases hcomp with rfl | rfl | rfl | rfl
    · exact comp_outcome_congr rfl rfl o3
        (g4.hframe "mwaa_worker" (by decide))
        (g4.lframe "mwaa.worker" (by decide))
        (g4.hframe "mwaa_worker_requirements" (by decide))
        (g4.lframe "mwaa.worker_requirements" (by decide))
        (g12.hframe "mwaa_worker" (by decide))
        (g12.lframe "mwaa.worker" (by decide))
        (g12.hframe "mwaa_worker_requirements" (by decide))
        (g12.lframe "mwaa.worker_requirements" (by decide))
    · have g13 := g12.comp f3
      exact comp_outcome_congr rfl rfl o4
        (g5.hframe "mwaa_scheduler" (by decide))
        (g5.lframe "mwaa.scheduler" (by decide))
        (g5.hframe "mwaa_scheduler_requirements" (by decide))
        (g5.lframe "mwaa.scheduler_requirements" (by decide))
        (g13.hframe "mwaa_scheduler" (by decide))
        (g13.lframe "mwaa.scheduler" (by decide))
        (g13.hframe "mwaa_scheduler_requirements" (by decide))
        (g13.lframe "mwaa.scheduler_requirements" (by decide))
    · have g14 := (g12.comp f3).comp f4
      exact comp_outcome_congr rfl rfl o5
        (f6.hframe "mwaa_webserver" (by decide))
        (f6.lframe "mwaa.webserver" (by decide))
        (f6.hframe "mwaa_webserver_requirements" (by decide))
        (f6.lframe "mwaa.webserver_requirements" (by decide))
        (g14.hframe "mwaa_webserver" (by decide))
        (g14.lframe "mwaa.webserver" (by decide))
        (g14.hframe "mwaa_webserver_requirements" (by decide))
        (g14.lframe "mwaa.webserver_requirements" (by decide))
    · have g15 := ((g12.comp f3).comp f4).comp f5
      exact comp_outcome_congr rfl rfl o6
        rfl rfl rfl rfl
        (g15.hframe "mwaa_triggerer" (by decide))
        (g15.lframe "mwaa.triggerer" (by decide))
        (g15.hframe "mwaa_triggerer_requirements" (by decide))
        (g15.lframe "mwaa.triggerer_requirements" (by decide))

/-! ## Which environment variables are consulted -/

/-- The three environment variables consulted for a log source `s`. -/
def consulted_vars (s : String) : List String :=
  ["MWAA__LOGGING__AIRFLOW_" ++ py_upper s ++ "_LOG_GROUP_ARN",
   "MWAA__LOGGING__AIRFLOW_" ++ py_upper s ++ "_LOG_LEVEL",
   "MWAA__LOGGING__AIRFLOW_" ++ py_upper s ++ "_LOGS_ENABLED"]

/-- Every environment variable `_configure` consults, over all its log
sources. -/
def all_consulted_vars : List String :=
  "MWAA__CORE__KMS_KEY_ARN" ::
    (consulted_vars "task" ++ consulted_vars "dagprocessor" ++
     consulted_vars "Worker" ++ consulted_vars "Scheduler" ++
     consulted_vars "WebServer" ++ consulted_vars "Triggerer")

theorem get_vars_agree (s : String) (env1 env2 : Env)
    (h : ∀ k, k ∈ consulted_vars s → env1 k = env2 k) :
    _get_mwaa_logging_env_vars env1 s = _get_mwaa_logging_env_vars env2 s := by
  unfold _get_mwaa_logging_env_vars
  rw [h _ (by simp [consulted_vars]), h _ (by simp [consulted_vars]),
    h _ (by simp [consulted_vars])]

theorem task_logging_agree (hp : HostParams) (env1 env2 : Env)
    (hv : _get_mwaa_logging_env_vars env1 "task" =
      _get_mwaa_logging_env_vars env2 "task")
    (hk : _get_kms_key_arn env1 = _get_kms_key_arn env2) (cfg : Dict) :
    _configure_task_logging hp env1 cfg = _configure_task_logging hp env2 cfg := by
  simp only [_configure_task_logging, hv, hk]

theorem dag_logging_agree (hp : HostParams) (env1 env2 : Env)
    (hv : _get_mwaa_logging_env_vars env1 "dagprocessor" =
      _get_mwaa_logging_env_vars env2 "dagprocessor")
    (hk : _get_kms_key_arn env1 = _get_kms_key_arn env2) (cfg : Dict) :
    _configure_dag_processing_logging hp env1 cfg =
      _configure_dag_processing_logging hp env2 cfg := by
  simp only [_configure_dag_processing_logging, hv, hk]

theorem sub_logging_agree (hp : HostParams) (env1 env2 : Env)
    (hk : _get_kms_key_arn env1 = _get_kms_key_arn env2) (n : String)
    (arn : Option String) (lvl : String) (en : Bool) (cfg : Dict) :
    _configure_subprocesses_logging hp env1 n arn lvl en cfg =
      _configure_subprocesses_logging hp env2 n arn lvl en cfg := by
  simp only [_configure_subprocesses_logging, hk]

theorem configure_comp_agree (hp : HostParams) (env1 env2 : Env)
    (hk : _get_kms_key_arn env1 = _get_kms_key_arn env2) (comp : String)
    (hv : _get_mwaa_logging_env_vars env1 comp =
      _get_mwaa_logging_env_vars env2 comp) (cfg : Dict) :
    configure_comp hp env1 comp cfg = configure_comp hp env2 comp cfg := by
  simp only [configure_comp, hv, sub_logging_agree hp env1 env2 hk]

/-- `_configure` consults nothing in the environment beyond
`all_consulted_vars`: two environments that agree there produce identical
results from any starting configuration. -/
theorem configure_env_agree (hp : HostParams) (cfg : Dict) (env1 env2 : Env)
    (h : ∀ k, k ∈ all_consulted_vars → env1 k = env2 k) :
    _configure hp env1 cfg = _configure hp env2 cfg := by
  have hk : _get_kms_key_arn env1 = _get_kms_key_arn env2 :=
    h _ (by simp [all_consulted_vars])
  have hsub : ∀ s, s ∈ ["task", "dagprocessor", "Worker", "Scheduler",
      "WebServer", "Triggerer"] →
      _get_mwaa_logging_env_vars env1 s = _get_mwaa_logging_env_vars env2 s := by
    intro s hs
    refine get_vars_agree s env1 env2 (fun k hk' => h k ?_)
    fin_cases hs <;>
      simp only [all_consulted_vars, List.mem_cons, List.mem_append] <;>
      tauto
  simp only [_configure, subprocess_components, List.foldlM,
    task_logging_agree hp env1 env2 (hsub _ (by simp)) hk,
    dag_logging_agree hp env1 env2 (hsub _ (by simp)) hk,
    configure_comp_agree hp env1 env2 hk "Worker" (hsub _ (by simp)),
    configure_comp_agree hp env1 env2 hk "Scheduler" (hsub _ (by simp)),
    configure_comp_agree hp env1 env2 hk "WebServer" (hsub _ (by simp)),
    configure_comp_agree hp env1 env2 hk "Triggerer" (hsub _ (by simp))]

/-! ## Specializations of the environment triple to the six log sources -/

theorem task_vars_eq (env : Env) : _get_mwaa_logging_env_vars env "task" =
    (env "MWAA__LOGGING__AIRFLOW_TASK_LOG_GROUP_ARN",
     (env "MWAA__LOGGING__AIRFLOW_TASK_LOG_LEVEL").getD "INFO",
     py_lower ((env "MWAA__LOGGING__AIRFLOW_TASK_LOGS_ENABLED").getD "false")
       == "true") := rfl

theorem dagprocessor_vars_eq (env : Env) :
    _get_mwaa_logging_env_vars env "dagprocessor" =
    (env "MWAA__LOGGING__AIRFLOW_DAGPROCESSOR_LOG_GROUP_ARN",
     (env "MWAA__LOGGING__AIRFLOW_DAGPROCESSOR_LOG_LEVEL").getD "INFO",
     py_lower
       ((env "MWAA__LOGGING__AIRFLOW_DAGPROCESSOR_LOGS_ENABLED").getD "false")
       == "true") := rfl

theorem worker_vars_eq (env : Env) : _get_mwaa_logging_env_vars env "Worker" =
    (env "MWAA__LOGGING__AIRFLOW_WORKER_LOG_GROUP_ARN",
     (env "MWAA__LOGGING__AIRFLOW_WORKER_LOG_LEVEL").getD "INFO",
     py_lower ((env "MWAA__LOGGING__AIRFLOW_WORKER_LOGS_ENABLED").getD "false")
       == "true") := rfl

/-! ## Sample fixtures used by the witness theorems -/

/-- Sample values for the host-supplied constants. -/
def hp_sample : HostParams :=
  ⟨"/usr/local/airflow/logs", "dag_processor_manager.log",
   "dag_processor_log.log",
   "mwaa.logging.cloudwatch_handlers.TaskLogHandler",
   "mwaa.logging.cloudwatch_handlers.DagProcessorManagerLogHandler",
   "mwaa.logging.cloudwatch_handlers.DagProcessingLogHandler",
   "mwaa.logging.cloudwatch_handlers.SubprocessLogHandler"⟩

/-- The `"airflow.task"` logger of the sample default configuration. -/
def task_logger_sample : Dict :=
  [("handlers", PyVal.list ["task"]), ("level", PyVal.str "INFO"),
   ("propagate", PyVal.boolV false)]

/-- The `"handlers"` dict of the sample default configuration. -/
def handlers_sample : Dict :=
  [("console", PyVal.dict []), ("task", PyVal.dict []),
   ("processor", PyVal.dict [])]

/-- The `"loggers"` dict of the sample default configuration. -/
def loggers_sample : Dict :=
  [("airflow.processor", PyVal.dict []),
   ("airflow.task", PyVal.dict task_logger_sample),
   ("flask_appbuilder", PyVal.dict [])]

/-- A sample stand-in for Airflow's `DEFAULT_LOGGING_CONFIG`, with the shape
the module relies on. -/
def default_config_sample : Dict :=
  [("version", PyVal.str "1"),
   ("disable_existing_loggers", PyVal.boolV false),
   ("formatters", PyVal.dict [("airflow", PyVal.dict [])]),
   ("filters", PyVal.dict [("mask_secrets", PyVal.dict [])]),
   ("handlers", PyVal.dict handlers_sample),
   ("loggers", PyVal.dict loggers_sample),
   ("root", PyVal.dict [])]

/-- Build an environment from a finite table. -/
def env_of (l : List (String × String)) : Env := fun k => lookupStr l k

/-- A sample environment enabling every log source. -/
def env_all_on : Env := env_of
  [("MWAA__CORE__KMS_KEY_ARN", "arn:aws:kms:us-east-1:1:key/k"),
   ("MWAA__LOGGING__AIRFLOW_TASK_LOG_GROUP_ARN", "arn:aws:logs:g:task"),
   ("MWAA__LOGGING__AIRFLOW_TASK_LOG_LEVEL", "DEBUG"),
   ("MWAA__LOGGING__AIRFLOW_TASK_LOGS_ENABLED", "true"),
   ("MWAA__LOGGING__AIRFLOW_DAGPROCESSOR_LOG_GROUP_ARN", "arn:aws:logs:g:dag"),
   ("MWAA__LOGGING__AIRFLOW_DAGPROCESSOR_LOGS_ENABLED", "TRUE"),
   ("MWAA__LOGGING__AIRFLOW_WORKER_LOG_GROUP_ARN", "arn:aws:logs:g:w"),
   ("MWAA__LOGGING__AIRFLOW_WORKER_LOG_LEVEL", "WARNING"),
   ("MWAA__LOGGING__AIRFLOW_WORKER_LOGS_ENABLED", "false"),
   ("MWAA__LOGGING__AIRFLOW_SCHEDULER_LOG_GROUP_ARN", "arn:aws:logs:g:s"),
   ("MWAA__LOGGING__AIRFLOW_WEBSERVER_LOG_GROUP_ARN", "arn:aws:logs:g:ws"),
   ("MWAA__LOGGING__AIRFLOW_TRIGGERER_LOG_GROUP_ARN", "arn:aws:logs:g:t")]

/-! ## The claims -/

/-- C1: for every assignment of the consulted environment variables
(including all absent), `_configure` completes without raising an error; an
absent variable only disables the corresponding feature.  The hypotheses
state the shape Airflow's `DEFAULT_LOGGING_CONFIG` always has: `"handlers"`
and `"loggers"` entries that are dicts, the latter containing a dict logger
under `"airflow.task"`. -/
theorem claim1_configure_never_fails (hp : HostParams) (env : Env)
    (DEFAULT_LOGGING_CONFIG H L T : Dict)
    (hH : dget DEFAULT_LOGGING_CONFIG "handlers" = Option.some (PyVal.dict H))
    (hL : dget DEFAULT_LOGGING_CONFIG "loggers" = Option.some (PyVal.dict L))
    (hT : dget L "airflow.task" = Option.some (PyVal.dict T)) :
    ∃ cfg', _configure hp env (LOGGING_CONFIG_init DEFAULT_LOGGING_CONFIG) =
      Option.some cfg' := by
  obtain ⟨cfg', H', L', heq, -⟩ :=
    configure_spec hp env (LOGGING_CONFIG_init DEFAULT_LOGGING_CONFIG)
      H L T hH hL hT
  exact ⟨cfg', heq⟩

/-- Witness for C1 at concrete inputs. -/
theorem claim1_witness :
    ∃ cfg', _configure hp_sample env_all_on
      (LOGGING_CONFIG_init default_config_sample) = Option.some cfg' :=
  claim1_configure_never_fails hp_sample env_all_on default_config_sample
    handlers_sample loggers_sample task_logger_sample rfl rfl rfl

/-- C2: for every log source name `S`, the consulted settings are exactly
the three `MWAA__LOGGING__AIRFLOW_<uppercase S>_*` variables (log group ARN
defaulting to `None`, log level defaulting to `"INFO"`, enabled flag
defaulting to `"false"` and interpreted as true iff case-insensitively equal
to `"true"`) plus `MWAA__CORE__KMS_KEY_ARN`, and
`_get_mwaa_logging_env_vars` returns the triple
(log group ARN, log level, enabled boolean). -/
theorem claim2_env_vars_contract (S : String) (env : Env) :
    (_get_mwaa_logging_env_vars env S).1 =
      env ("MWAA__LOGGING__AIRFLOW_" ++ py_upper S ++ "_LOG_GROUP_ARN") ∧
    (_get_mwaa_logging_env_vars env S).2.1 =
      (env ("MWAA__LOGGING__AIRFLOW_" ++ py_upper S ++ "_LOG_LEVEL")).getD
        "INFO" ∧
    ((_get_mwaa_logging_env_vars env S).2.2 = true ↔
      py_lower ((env ("MWAA__LOGGING__AIRFLOW_" ++ py_upper S ++
        "_LOGS_ENABLED")).getD "false") = "true") ∧
    (env ("MWAA__LOGGING__AIRFLOW_" ++ py_upper S ++ "_LOGS_ENABLED") =
      Option.none → (_get_mwaa_logging_env_vars env S).2.2 = false) ∧
    _get_kms_key_arn env = env "MWAA__CORE__KMS_KEY_ARN" ∧
    (∀ env2 : Env, (∀ k, k ∈ consulted_vars S → env k = env2 k) →
      _get_mwaa_logging_env_vars env S = _get_mwaa_logging_env_vars env2 S) := by
  refine ⟨rfl, rfl, ?_, ?_, rfl, get_vars_agree S env⟩
  · show (py_lower ((env _).getD "false") == "true") = true ↔ _
    exact beq_iff_eq
  · intro h
    show (py_lower ((env _).getD "false") == "true") = false
    rw [h]
    rfl

/-- C3: with `MWAA__LOGGING__AIRFLOW_DAGPROCESSOR_LOG_GROUP_ARN` set to a
non-empty value, `_configure` adds the `"processor_manager"`/`"processor"`
handlers and the `"airflow.processor_manager"`/`"airflow.processor"` loggers,
each logger carrying the DAGPROCESSOR log level, `propagate: False` and a
one-element handlers list naming its handler; with the variable unset, none
of these four entries is added (each remains what the default had). -/
theorem claim3_dagprocessor_entries (hp : HostParams) (env : Env)
    (DEFAULT_LOGGING_CONFIG H L T : Dict)
    (hH : dget DEFAULT_LOGGING_CONFIG "handlers" = Option.some (PyVal.dict H))
    (hL : dget DEFAULT_LOGGING_CONFIG "loggers" = Option.some (PyVal.dict L))
    (hT : dget L "airflow.task" = Option.some (PyVal.dict T)) :
    ∃ cfg' H' L',
      _configure hp env (LOGGING_CONFIG_init DEFAULT_LOGGING_CONFIG) =
        Option.some cfg' ∧
      dget cfg' "handlers" = Option.some (PyVal.dict H') ∧
      dget cfg' "loggers" = Option.some (PyVal.dict L') ∧
      (∀ a, env "MWAA__LOGGING__AIRFLOW_DAGPROCESSOR_LOG_GROUP_ARN" =
          Option.some a → a ≠ "" →
        dget H' "processor_manager" =
          Option.some (processor_manager_handler_dict hp (_get_kms_key_arn env)
            (Option.some a)
            (py_lower ((env "MWAA__LOGGING__AIRFLOW_DAGPROCESSOR_LOGS_ENABLED").getD
              "false") == "true")) ∧
        dget H' "processor" =
          Option.some (processor_handler_dict hp (_get_kms_key_arn env)
            (Option.some a)
            (py_lower ((env "MWAA__LOGGING__AIRFLOW_DAGPROCESSOR_LOGS_ENABLED").getD
              "false") == "true")) ∧
        dget L' "airflow.processor_manager" =
          Option.some (simple_logger_dict "processor_manager"
            ((env "MWAA__LOGGING__AIRFLOW_DAGPROCESSOR_LOG_LEVEL").getD "INFO")) ∧
        dget L' "airflow.processor" =
          Option.some (simple_logger_dict "processor"
            ((env "MWAA__LOGGING__AIRFLOW_DAGPROCESSOR_LOG_LEVEL").getD "INFO"))) ∧
      (env "MWAA__LOGGING__AIRFLOW_DAGPROCESSOR_LOG_GROUP_ARN" = Option.none →
        dget H' "processor_manager" = dget H "processor_manager" ∧
        dget H' "processor" = dget H "processor" ∧
        dget L' "airflow.processor_manager" = dget L "airflow.processor_manager" ∧
        dget L' "airflow.processor" = dget L "airflow.processor") := by
  obtain ⟨cfg', H', L', heq, hf, -, hdag, -⟩ :=
    configure_spec hp env (LOGGING_CONFIG_init DEFAULT_LOGGING_CONFIG)
      H L T hH hL hT
  refine ⟨cfg', H', L', heq, hf.hH', hf.hL', ?_, ?_⟩
  · intro a ha hne
    have htr : truthy (Option.some a) = true := by
      simp [truthy, hne]
    simp only [dag_outcome, dagprocessor_vars_eq, ha, htr, if_true] at hdag
    exact ⟨hdag.1, hdag.2.2.1, hdag.2.1, hdag.2.2.2⟩
  · intro ha
    simp only [dag_outcome, dagprocessor_vars_eq, ha, truthy,
      Bool.false_eq_true, if_false] at hdag
    exact ⟨hdag.1, hdag.2.2.1, hdag.2.1, hdag.2.2.2⟩

/-- Witness for C3 at concrete inputs (DAGPROCESSOR ARN set, enabled
`"TRUE"`, level left to default `"INFO"`). -/
theorem claim3_witness :
    ∃ cfg' H' L',
      _configure hp_sample env_all_on
        (LOGGING_CONFIG_init default_config_sample) = Option.some cfg' ∧
      dget cfg' "handlers" = Option.some (PyVal.dict H') ∧
      dget cfg' "loggers" = Option.some (PyVal.dict L') ∧
      dget H' "processor_manager" =
        Option.some (processor_manager_handler_dict hp_sample
          (Option.some "arn:aws:kms:us-east-1:1:key/k")
          (Option.some "arn:aws:logs:g:dag") true) ∧
      dget L' "airflow.processor_manager" =
        Option.some (simple_logger_dict "processor_manager" "INFO") ∧
      dget L' "airflow.processor" =
        Option.some (simple_logger_dict "processor" "INFO") := by
  obtain ⟨cfg', H', L', h1, h2, h3, h4, -⟩ :=
    claim3_dagprocessor_entries hp_sample env_all_on default_config_sample
      handlers_sample loggers_sample task_logger_sample rfl rfl rfl
  obtain ⟨hb1, -, hb3, hb4⟩ := h4 "arn:aws:logs:g:dag" rfl (by decide)
  exact ⟨cfg', H', L', h1, h2, h3, hb1, hb3, hb4⟩

/-- C4: with `MWAA__LOGGING__AIRFLOW_TASK_LOG_GROUP_ARN` set to a non-empty
value, after `_configure` the `"task"` handler is the CloudWatch
`TaskLogHandler` entry and the pre-existing `"airflow.task"` logger has its
`"level"` set to the TASK log level while every other field is unchanged. -/
theorem claim4_task_entries (hp : HostParams) (env : Env)
    (DEFAULT_LOGGING_CONFIG H L T : Dict)
    (hH : dget DEFAULT_LOGGING_CONFIG "handlers" = Option.some (PyVal.dict H))
    (hL : dget DEFAULT_LOGGING_CONFIG "loggers" = Option.some (PyVal.dict L))
    (hT : dget L "airflow.task" = Option.some (PyVal.dict T))
    (a : String)
    (ha : env "MWAA__LOGGING__AIRFLOW_TASK_LOG_GROUP_ARN" = Option.some a)
    (hne : a ≠ "") :
    ∃ cfg' H' L' T',
      _configure hp env (LOGGING_CONFIG_init DEFAULT_LOGGING_CONFIG) =
        Option.some cfg' ∧
      dget cfg' "handlers" = Option.some (PyVal.dict H') ∧
      dget cfg' "loggers" = Option.some (PyVal.dict L') ∧
      dget H' "task" =
        Option.some (task_handler_dict hp (_get_kms_key_arn env)
          (Option.some a)
          (py_lower ((env "MWAA__LOGGING__AIRFLOW_TASK_LOGS_ENABLED").getD
            "false") == "true")) ∧
      dget L' "airflow.task" = Option.some (PyVal.dict T') ∧
      dget T' "level" = Option.some (PyVal.str
        ((env "MWAA__LOGGING__AIRFLOW_TASK_LOG_LEVEL").getD "INFO")) ∧
      (∀ k, k ≠ "level" → dget T' k = dget T k) := by
  obtain ⟨cfg', H', L', heq, hf, htask, -, -⟩ :=
    configure_spec hp env (LOGGING_CONFIG_init DEFAULT_LOGGING_CONFIG)
      H L T hH hL hT
  have htr : truthy (Option.some a) = true := by
    simp [truthy, hne]
  simp only [task_outcome, task_vars_eq, ha, htr, if_true] at htask
  have hupd : dict_update T [("level", PyVal.str
      ((env "MWAA__LOGGING__AIRFLOW_TASK_LOG_LEVEL").getD "INFO"))] =
      dset T "level" (PyVal.str
        ((env "MWAA__LOGGING__AIRFLOW_TASK_LOG_LEVEL").getD "INFO")) := rfl
  refine ⟨cfg', H', L', dset T "level" (PyVal.str
      ((env "MWAA__LOGGING__AIRFLOW_TASK_LOG_LEVEL").getD "INFO")),
    heq, hf.hH', hf.hL', htask.1, ?_, ?_, ?_⟩
  · rw [htask.2, hupd]
  · exact dget_dset_self T "level" _
  · intro k hk
    exact dget_dset_ne T "level" _ k hk

/-- Witness for C4 at concrete inputs. -/
theorem claim4_witness :
    ∃ cfg' H' L' T',
      _configure hp_sample env_all_on
        (LOGGING_CONFIG_init default_config_sample) = Option.some cfg' ∧
      dget cfg' "handlers" = Option.some (PyVal.dict H') ∧
      dget cfg' "loggers" = Option.some (PyVal.dict L') ∧
      dget H' "task" =
        Option.some (task_handler_dict hp_sample
          (Option.some "arn:aws:kms:us-east-1:1:key/k")
          (Option.some "arn:aws:logs:g:task") true) ∧
      dget L' "airflow.task" = Option.some (PyVal.dict T') ∧
      dget T' "level" = Option.some (PyVal.str "DEBUG") ∧
      (∀ k, k ≠ "level" → dget T' k = dget task_logger_sample k) := by
  obtain ⟨cfg', H', L', T', h1, h2, h3, h4, h5, h6, h7⟩ :=
    claim4_task_entries hp_sample env_all_on default_config_sample
      handlers_sample loggers_sample task_logger_sample rfl rfl rfl
      "arn:aws:logs:g:task" rfl (by decide)
  exact ⟨cfg', H', L', T', h1, h2, h3, h4, h5, h6, h7⟩

/-- C5: `_configure` touches only the MWAA handler/logger keys: every
handler key outside `mwaa_handler_keys`, every logger key outside
`mwaa_logger_keys`, and every top-level key other than `"handlers"` and
`"loggers"`, keeps the value it has in `DEFAULT_LOGGING_CONFIG`, for every
environment. -/
theorem claim5_frame_effect (hp : HostParams) (env : Env)
    (DEFAULT_LOGGING_CONFIG H L T : Dict)
    (hH : dget DEFAULT_LOGGING_CONFIG "handlers" = Option.some (PyVal.dict H))
    (hL : dget DEFAULT_LOGGING_CONFIG "loggers" = Option.some (PyVal.dict L))
    (hT : dget L "airflow.task" = Option.some (PyVal.dict T)) :
    ∃ cfg' H' L',
      _configure hp env (LOGGING_CONFIG_init DEFAULT_LOGGING_CONFIG) =
        Option.some cfg' ∧
      dget cfg' "handlers" = Option.some (PyVal.dict H') ∧
      dget cfg' "loggers" = Option.some (PyVal.dict L') ∧
      (∀ k, k ≠ "handlers" → k ≠ "loggers" →
        dget cfg' k = dget DEFAULT_LOGGING_CONFIG k) ∧
      (∀ k, k ∉ mwaa_handler_keys → dget H' k = dget H k) ∧
      (∀ k, k ∉ mwaa_logger_keys → dget L' k = dget L k) := by
  obtain ⟨cfg', H', L', heq, hf, -, -, -⟩ :=
    configure_spec hp env (LOGGING_CONFIG_init DEFAULT_LOGGING_CONFIG)
      H L T hH hL hT
  exact ⟨cfg', H', L', heq, hf.hH', hf.hL', hf.top, hf.hframe, hf.lframe⟩

/-- Witness for C5 at concrete inputs. -/
theorem claim5_witness :
    ∃ cfg' H' L',
      _configure hp_sample env_all_on
        (LOGGING_CONFIG_init default_config_sample) = Option.some cfg' ∧
      dget cfg' "handlers" = Option.some (PyVal.dict H') ∧
      dget cfg' "loggers" = Option.some (PyVal.dict L') ∧
      (∀ k, k ≠ "handlers" → k ≠ "loggers" →
        dget cfg' k = dget default_config_sample k) ∧
      (∀ k, k ∉ mwaa_handler_keys → dget H' k = dget handlers_sample k) ∧
      (∀ k, k ∉ mwaa_logger_keys → dget L' k = dget loggers_sample k) :=
  claim5_frame_effect hp_sample env_all_on default_config_sample
    handlers_sample loggers_sample task_logger_sample rfl rfl rfl

/-- C6: configuration assembly is a pure function of the consulted
environment variables: two environments that agree on every consulted
variable produce identical results from the same default configuration. -/
theorem claim6_deterministic (hp : HostParams)
    (DEFAULT_LOGGING_CONFIG : Dict) (env1 env2 : Env)
    (h : ∀ k, k ∈ all_consulted_vars → env1 k = env2 k) :
    _configure hp env1 (LOGGING_CONFIG_init DEFAULT_LOGGING_CONFIG) =
      _configure hp env2 (LOGGING_CONFIG_init DEFAULT_LOGGING_CONFIG) :=
  configure_env_agree hp (LOGGING_CONFIG_init DEFAULT_LOGGING_CONFIG)
    env1 env2 h

/-- An environment equal to `env_all_on` on every consulted variable but
different elsewhere. -/
def env_all_on_noise : Env := fun k =>
  if k = "PYTHONPATH" then Option.some "/opt/junk" else env_all_on k

/-- Witness for C6 at concrete inputs: the two environments differ (at
`PYTHONPATH`) but agree on all consulted variables. -/
theorem claim6_witness :
    _configure hp_sample env_all_on
      (LOGGING_CONFIG_init default_config_sample) =
    _configure hp_sample env_all_on_noise
      (LOGGING_CONFIG_init default_config_sample) :=
  claim6_deterministic hp_sample default_config_sample env_all_on
    env_all_on_noise (by decide)

/-- C7: `_configure` only adds or overwrites entries: every top-level,
handler, and logger key present before it runs is still present afterwards,
for every environment. -/
theorem claim7_no_removal (hp : HostParams) (env : Env)
    (DEFAULT_LOGGING_CONFIG H L T : Dict)
    (hH : dget DEFAULT_LOGGING_CONFIG "handlers" = Option.some (PyVal.dict H))
    (hL : dget DEFAULT_LOGGING_CONFIG "loggers" = Option.some (PyVal.dict L))
    (hT : dget L "airflow.task" = Option.some (PyVal.dict T)) :
    ∃ cfg' H' L',
      _configure hp env (LOGGING_CONFIG_init DEFAULT_LOGGING_CONFIG) =
        Option.some cfg' ∧
      dget cfg' "handlers" = Option.some (PyVal.dict H') ∧
      dget cfg' "loggers" = Option.some (PyVal.dict L') ∧
      (∀ k, (dget DEFAULT_LOGGING_CONFIG k).isSome → (dget cfg' k).isSome) ∧
      (∀ k, (dget H k).isSome → (dget H' k).isSome) ∧
      (∀ k, (dget L k).isSome → (dget L' k).isSome) := by
  obtain ⟨cfg', H', L', heq, hf, -, -, -⟩ :=
    configure_spec hp env (LOGGING_CONFIG_init DEFAULT_LOGGING_CONFIG)
      H L T hH hL hT
  exact ⟨cfg', H', L', heq, hf.hH', hf.hL', hf.topmono, hf.hmono, hf.lmono⟩

/-- Witness for C7 at concrete inputs. -/
theorem claim7_witness :
    ∃ cfg' H' L',
      _configure hp_sample env_all_on
        (LOGGING_CONFIG_init default_config_sample) = Option.some cfg' ∧
      dget cfg' "handlers" = Option.some (PyVal.dict H') ∧
      dget cfg' "loggers" = Option.some (PyVal.dict L') ∧
      (∀ k, (dget default_config_sample k).isSome → (dget cfg' k).isSome) ∧
      (∀ k, (dget handlers_sample k).isSome → (dget H' k).isSome) ∧
      (∀ k, (dget loggers_sample k).isSome → (dget L' k).isSome) :=
  claim7_no_removal hp_sample env_all_on default_config_sample
    handlers_sample loggers_sample task_logger_sample rfl rfl rfl

/-! ## The `"enabled"` field of each handler dict -/

theorem task_handler_enabled (hp : HostParams) (kms arn : Option String)
    (en : Bool) : ∃ hd, task_handler_dict hp kms arn en = PyVal.dict hd ∧
      dget hd "enabled" = Option.some (PyVal.boolV en) :=
  ⟨_, rfl, rfl⟩

theorem processor_manager_handler_enabled (hp : HostParams)
    (kms arn : Option String) (en : Bool) :
    ∃ hd, processor_manager_handler_dict hp kms arn en = PyVal.dict hd ∧
      dget hd "enabled" = Option.some (PyVal.boolV en) :=
  ⟨_, rfl, rfl⟩

theorem processor_handler_enabled (hp : HostParams) (kms arn : Option String)
    (en : Bool) :
    ∃ hd, processor_handler_dict hp kms arn en = PyVal.dict hd ∧
      dget hd "enabled" = Option.some (PyVal.boolV en) :=
  ⟨_, rfl, rfl⟩

theorem subprocess_handler_enabled (hp : HostParams) (n : String)
    (kms arn : Option String) (en : Bool) :
    ∃ hd, subprocess_handler_dict hp n kms arn en = PyVal.dict hd ∧
      dget hd "enabled" = Option.some (PyVal.boolV en) :=
  ⟨_, rfl, rfl⟩

/-- C8: handler creation is gated solely by the log group ARN, never by the
enabled flag.  For each of the three configuration functions: a non-empty
ARN adds the handler/logger entries with the handler's `"enabled"` field
carrying the parsed flag (`False` whenever the `LOGS_ENABLED` variable is
absent or not case-insensitively `"true"`), while an unset or empty ARN
leaves the configuration untouched regardless of the enabled flag. -/
theorem claim8_arn_sole_gate (hp : HostParams) (env : Env) (cfg H L T : Dict)
    (hH : dget cfg "handlers" = Option.some (PyVal.dict H))
    (hL : dget cfg "loggers" = Option.some (PyVal.dict L))
    (hT : dget L "airflow.task" = Option.some (PyVal.dict T)) :
    (∀ a, env "MWAA__LOGGING__AIRFLOW_TASK_LOG_GROUP_ARN" = Option.some a →
      a ≠ "" →
      ∃ cfg1 H1 L1 hd,
        _configure_task_logging hp env cfg = Option.some cfg1 ∧
        dget cfg1 "handlers" = Option.some (PyVal.dict H1) ∧
        dget cfg1 "loggers" = Option.some (PyVal.dict L1) ∧
        dget H1 "task" = Option.some (PyVal.dict hd) ∧
        dget hd "enabled" = Option.some (PyVal.boolV
          (py_lower ((env "MWAA__LOGGING__AIRFLOW_TASK_LOGS_ENABLED").getD
            "false") == "true")) ∧
        (dget L1 "airflow.task").isSome) ∧
    ((env "MWAA__LOGGING__AIRFLOW_TASK_LOG_GROUP_ARN" = Option.none ∨
      env "MWAA__LOGGING__AIRFLOW_TASK_LOG_GROUP_ARN" = Option.some "") →
      _configure_task_logging hp env cfg = Option.some cfg) ∧
    (∀ a, env "MWAA__LOGGING__AIRFLOW_DAGPROCESSOR_LOG_GROUP_ARN" =
        Option.some a → a ≠ "" →
      ∃ cfg1 H1 L1 hd1 hd2,
        _configure_dag_processing_logging hp env cfg = Option.some cfg1 ∧
        dget cfg1 "handlers" = Option.some (PyVal.dict H1) ∧
        dget cfg1 "loggers" = Option.some (PyVal.dict L1) ∧
        dget H1 "processor_manager" = Option.some (PyVal.dict hd1) ∧
        dget hd1 "enabled" = Option.some (PyVal.boolV
          (py_lower
            ((env "MWAA__LOGGING__AIRFLOW_DAGPROCESSOR_LOGS_ENABLED").getD
              "false") == "true")) ∧
        dget H1 "processor" = Option.some (PyVal.dict hd2) ∧
        dget hd2 "enabled" = Option.some (PyVal.boolV
          (py_lower
            ((env "MWAA__LOGGING__AIRFLOW_DAGPROCESSOR_LOGS_ENABLED").getD
              "false") == "true")) ∧
        (dget L1 "airflow.processor_manager").isSome ∧
        (dget L1 "airflow.processor").isSome) ∧
    ((env "MWAA__LOGGING__AIRFLOW_DAGPROCESSOR_LOG_GROUP_ARN" = Option.none ∨
      env "MWAA__LOGGING__AIRFLOW_DAGPROCESSOR_LOG_GROUP_ARN" =
        Option.some "") →
      _configure_dag_processing_logging hp env cfg = Option.some cfg) ∧
    (∀ n lname arn lvl en,
      lookupStr MWAA_LOGGERS (py_lower n) = Option.some lname →
      ((arn = Option.none ∨ arn = Option.some "") →
        _configure_subprocesses_logging hp env n arn lvl en cfg =
          Option.some cfg) ∧
      (∀ a, arn = Option.some a → a ≠ "" →
        ∃ cfg1 H1 L1 hd,
          _configure_subprocesses_logging hp env n arn lvl en cfg =
            Option.some cfg1 ∧
          dget cfg1 "handlers" = Option.some (PyVal.dict H1) ∧
          dget cfg1 "loggers" = Option.some (PyVal.dict L1) ∧
          dget H1 (replace_dot_with_underscore lname) =
            Option.some (PyVal.dict hd) ∧
          dget hd "enabled" = Option.some (PyVal.boolV en) ∧
          dget L1 lname = Option.some
            (simple_logger_dict (replace_dot_with_underscore lname) lvl))) := by
  refine ⟨?_, ?_, ?_, ?_, ?_⟩
  · intro a ha hne
    obtain ⟨cfg1, H1, L1, heq, f, o⟩ := task_step hp env cfg H L T hH hL hT
    have htr : truthy (Option.some a) = true := by simp [truthy, hne]
    simp only [task_outcome, task_vars_eq, ha, htr, if_true] at o
    obtain ⟨hd, hhd, hen⟩ := task_handler_enabled hp (_get_kms_key_arn env)
      (Option.some a)
      (py_lower ((env "MWAA__LOGGING__AIRFLOW_TASK_LOGS_ENABLED").getD
        "false") == "true")
    refine ⟨cfg1, H1, L1, hd, heq, f.hH', f.hL', ?_, hen, ?_⟩
    · rw [o.1, hhd]
    · rw [o.2]
      rfl
  · intro h
    rcases h with h | h <;>
      simp [_configure_task_logging, task_vars_eq, h, truthy]
  · intro a ha hne
    obtain ⟨cfg1, H1, L1, heq, f, o⟩ := dag_step hp env cfg H L hH hL
    have htr : truthy (Option.some a) = true := by simp [truthy, hne]
    simp only [dag_outcome, dagprocessor_vars_eq, ha, htr, if_true] at o
    obtain ⟨hd1, hhd1, hen1⟩ := processor_manager_handler_enabled hp
      (_get_kms_key_arn env) (Option.some a)
      (py_lower
        ((env "MWAA__LOGGING__AIRFLOW_DAGPROCESSOR_LOGS_ENABLED").getD
          "false") == "true")
    obtain ⟨hd2, hhd2, hen2⟩ := processor_handler_enabled hp
      (_get_kms_key_arn env) (Option.some a)
      (py_lower
        ((env "MWAA__LOGGING__AIRFLOW_DAGPROCESSOR_LOGS_ENABLED").getD
          "false") == "true")
    refine ⟨cfg1, H1, L1, hd1, hd2, heq, f.hH', f.hL', ?_, hen1, ?_, hen2,
      ?_, ?_⟩
    · rw [o.1, hhd1]
    · rw [o.2.2.1, hhd2]
    · rw [o.2.1]
      rfl
    · rw [o.2.2.2]
      rfl
  · intro h
    rcases h with h | h <;>
      simp [_configure_dag_processing_logging, dagprocessor_vars_eq, h, truthy]
  · intro n lname arn lvl en hlook
    constructor
    · intro h
      rcases h with h | h <;> subst h <;>
        simp [_configure_subprocesses_logging, hlook, truthy]
    · intro a ha hne
      subst ha
      obtain ⟨cfg1, H1, L1, heq, f, o⟩ :=
        sub_step hp env n (Option.some a) lvl en cfg H L lname hlook hH hL
      have htr : truthy (Option.some a) = true := by simp [truthy, hne]
      simp only [sub_outcome, htr, if_true] at o
      obtain ⟨hd, hhd, hen⟩ := subprocess_handler_enabled hp n
        (_get_kms_key_arn env) (Option.some a) en
      refine ⟨cfg1, H1, L1, hd, heq, f.hH', f.hL', ?_, hen, o.2⟩
      rw [o.1, hhd]

/-- A sample environment with the task ARN set but task logs disabled, for
the C8 witness. -/
def env_task_arn_only : Env := env_of
  [("MWAA__LOGGING__AIRFLOW_TASK_LOG_GROUP_ARN", "arn:aws:logs:g:task2"),
   ("MWAA__LOGGING__AIRFLOW_TASK_LOGS_ENABLED", "false"),
   ("MWAA__LOGGING__AIRFLOW_WORKER_LOGS_ENABLED", "true")]

/-- Witness for C8 at concrete inputs: the task handler is added with
`enabled: False` although only the ARN is set, and a worker call with no ARN
changes nothing although its enabled flag is `True`. -/
theorem claim8_witness :
    ∃ cfg1 H1 L1 hd,
      _configure_task_logging hp_sample env_task_arn_only
        default_config_sample = Option.some cfg1 ∧
      dget cfg1 "handlers" = Option.some (PyVal.dict H1) ∧
      dget cfg1 "loggers" = Option.some (PyVal.dict L1) ∧
      dget H1 "task" = Option.some (PyVal.dict hd) ∧
      dget hd "enabled" = Option.some (PyVal.boolV false) ∧
      (dget L1 "airflow.task").isSome ∧
      _configure_subprocesses_logging hp_sample env_task_arn_only "Worker"
        Option.none "INFO" true default_config_sample =
        Option.some default_config_sample := by
  obtain ⟨hA, -, -, -, hEF⟩ :=
    claim8_arn_sole_gate hp_sample env_task_arn_only default_config_sample
      handlers_sample loggers_sample task_logger_sample rfl rfl rfl
  obtain ⟨cfg1, H1, L1, hd, h1, h2, h3, h4, h5, h6⟩ :=
    hA "arn:aws:logs:g:task2" rfl (by decide)
  have hw := (hEF "Worker" "mwaa.worker" Option.none "INFO" true rfl).1
    (Or.inl rfl)
  exact ⟨cfg1, H1, L1, hd, h1, h2, h3, h4, h5, h6, hw⟩

/-- The three hypothetical `<component>_REQUIREMENTS` environment variables
for a component; the module never reads them. -/
def requirements_env_vars (comp : String) : List String :=
  consulted_vars (comp ++ "_requirements")

/-- C9: each component's logger and its `_requirements` companion are
configured from the same environment triple, read once per component: the
two handlers share the ARN and enabled flag, the two loggers share the log
level, and no separate `<component>_REQUIREMENTS` environment variables are
consulted. -/
theorem claim9_shared_triple (hp : HostParams) (env : Env) (comp : String)
    (hcomp : comp ∈ subprocess_components)
    (DEFAULT_LOGGING_CONFIG H L T : Dict)
    (hH : dget DEFAULT_LOGGING_CONFIG "handlers" = Option.some (PyVal.dict H))
    (hL : dget DEFAULT_LOGGING_CONFIG "loggers" = Option.some (PyVal.dict L))
    (hT : dget L "airflow.task" = Option.some (PyVal.dict T)) :
    ∃ cfg' H' L',
      _configure hp env (LOGGING_CONFIG_init DEFAULT_LOGGING_CONFIG) =
        Option.some cfg' ∧
      dget cfg' "handlers" = Option.some (PyVal.dict H') ∧
      dget cfg' "loggers" = Option.some (PyVal.dict L') ∧
      (∀ lname1 lname2,
        lookupStr MWAA_LOGGERS (py_lower comp) = Option.some lname1 →
        lookupStr MWAA_LOGGERS (py_lower (comp ++ "_requirements")) =
          Option.some lname2 →
        truthy (_get_mwaa_logging_env_vars env comp).1 = true →
        dget H' (replace_dot_with_underscore lname1) =
          Option.some (subprocess_handler_dict hp comp (_get_kms_key_arn env)
            (_get_mwaa_logging_env_vars env comp).1
            (_get_mwaa_logging_env_vars env comp).2.2) ∧
        dget H' (replace_dot_with_underscore lname2) =
          Option.some (subprocess_handler_dict hp (comp ++ "_requirements")
            (_get_kms_key_arn env)
            (_get_mwaa_logging_env_vars env comp).1
            (_get_mwaa_logging_env_vars env comp).2.2) ∧
        dget L' lname1 = Option.some (simple_logger_dict
          (replace_dot_with_underscore lname1)
          (_get_mwaa_logging_env_vars env comp).2.1) ∧
        dget L' lname2 = Option.some (simple_logger_dict
          (replace_dot_with_underscore lname2)
          (_get_mwaa_logging_env_vars env comp).2.1)) ∧
      (∀ env2 : Env, (∀ k, k ∉ requirements_env_vars comp → env k = env2 k) →
        _configure hp env (LOGGING_CONFIG_init DEFAULT_LOGGING_CONFIG) =
          _configure hp env2 (LOGGING_CONFIG_init DEFAULT_LOGGING_CONFIG)) := by
  obtain ⟨cfg', H', L', heq, hf, -, -, hcomps⟩ :=
    configure_spec hp env (LOGGING_CONFIG_init DEFAULT_LOGGING_CONFIG)
      H L T hH hL hT
  refine ⟨cfg', H', L', heq, hf.hH', hf.hL', ?_, ?_⟩
  · intro l1 l2 hl1 hl2 htr
    obtain ⟨ha, hb⟩ := hcomps comp hcomp
    have o1 := ha l1 hl1
    have o2 := hb l2 hl2
    simp only [sub_outcome, htr, if_true] at o1 o2
    exact ⟨o1.1, o2.1, o1.2, o2.2⟩
  · intro env2 h
    have hdisj : ∀ k, k ∈ all_consulted_vars →
        k ∉ requirements_env_vars comp := by
      simp only [subprocess_components, List.mem_cons, List.not_mem_nil,
        or_false] at hcomp
      rcases hcomp with rfl | rfl | rfl | rfl <;> decide
    exact configure_env_agree hp _ env env2 (fun k hk => h k (hdisj k hk))

/-- Witness for C9 at concrete inputs (`comp = "Worker"`). -/
theorem claim9_witness :
    ∃ cfg' H' L',
      _configure hp_sample env_all_on
        (LOGGING_CONFIG_init default_config_sample) = Option.some cfg' ∧
      dget cfg' "handlers" = Option.some (PyVal.dict H') ∧
      dget cfg' "loggers" = Option.some (PyVal.dict L') ∧
      dget H' "mwaa_worker" =
        Option.some (subprocess_handler_dict hp_sample "Worker"
          (Option.some "arn:aws:kms:us-east-1:1:key/k")
          (Option.some "arn:aws:logs:g:w") false) ∧
      dget H' "mwaa_worker_requirements" =
        Option.some (subprocess_handler_dict hp_sample "Worker_requirements"
          (Option.some "arn:aws:kms:us-east-1:1:key/k")
          (Option.some "arn:aws:logs:g:w") false) ∧
      dget L' "mwaa.worker" =
        Option.some (simple_logger_dict "mwaa_worker" "WARNING") ∧
      dget L' "mwaa.worker_requirements" =
        Option.some (simple_logger_dict "mwaa_worker_requirements"
          "WARNING") := by
  obtain ⟨cfg', H', L', h1, h2, h3, h4, -⟩ :=
    claim9_shared_triple hp_sample env_all_on "Worker" (by decide)
      default_config_sample handlers_sample loggers_sample
      task_logger_sample rfl rfl rfl
  obtain ⟨w1, w2, w3, w4⟩ :=
    h4 "mwaa.worker" "mwaa.worker_requirements" rfl rfl (by decide)
  exact ⟨cfg', H', L', h1, h2, h3, w1, w2, w3, w4⟩

/-- C10: every logger entry `_configure` adds (dag-processing and component
loggers; the pre-existing `"airflow.task"` is only updated) has
`propagate: False` and a one-element handlers list (both visible in
`simple_logger_dict`), and the named handler is a key of the final handlers
dict, for every environment. -/
theorem claim10_added_loggers (hp : HostParams) (env : Env)
    (DEFAULT_LOGGING_CONFIG H L T : Dict)
    (hH : dget DEFAULT_LOGGING_CONFIG "handlers" = Option.some (PyVal.dict H))
    (hL : dget DEFAULT_LOGGING_CONFIG "loggers" = Option.some (PyVal.dict L))
    (hT : dget L "airflow.task" = Option.some (PyVal.dict T)) :
    ∃ cfg' H' L',
      _configure hp env (LOGGING_CONFIG_init DEFAULT_LOGGING_CONFIG) =
        Option.some cfg' ∧
      dget cfg' "handlers" = Option.some (PyVal.dict H') ∧
      dget cfg' "loggers" = Option.some (PyVal.dict L') ∧
      (truthy (env "MWAA__LOGGING__AIRFLOW_DAGPROCESSOR_LOG_GROUP_ARN") =
        true →
        dget L' "airflow.processor_manager" =
          Option.some (simple_logger_dict "processor_manager"
            ((env "MWAA__LOGGING__AIRFLOW_DAGPROCESSOR_LOG_LEVEL").getD
              "INFO")) ∧
        (dget H' "processor_manager").isSome = true ∧
        dget L' "airflow.processor" =
          Option.some (simple_logger_dict "processor"
            ((env "MWAA__LOGGING__AIRFLOW_DAGPROCESSOR_LOG_LEVEL").getD
              "INFO")) ∧
        (dget H' "processor").isSome = true) ∧
      (∀ comp, comp ∈ subprocess_components → ∀ lname1 lname2,
        lookupStr MWAA_LOGGERS (py_lower comp) = Option.some lname1 →
        lookupStr MWAA_LOGGERS (py_lower (comp ++ "_requirements")) =
          Option.some lname2 →
        truthy (_get_mwaa_logging_env_vars env comp).1 = true →
        dget L' lname1 = Option.some (simple_logger_dict
          (replace_dot_with_underscore lname1)
          (_get_mwaa_logging_env_vars env comp).2.1) ∧
        (dget H' (replace_dot_with_underscore lname1)).isSome = true ∧
        dget L' lname2 = Option.some (simple_logger_dict
          (replace_dot_with_underscore lname2)
          (_get_mwaa_logging_env_vars env comp).2.1) ∧
        (dget H' (replace_dot_with_underscore lname2)).isSome = true) := by
  obtain ⟨cfg', H', L', heq, hf, -, hdag, hcomps⟩ :=
    configure_spec hp env (LOGGING_CONFIG_init DEFAULT_LOGGING_CONFIG)
      H L T hH hL hT
  refine ⟨cfg', H', L', heq, hf.hH', hf.hL', ?_, ?_⟩
  · intro htr
    simp only [dag_outcome, dagprocessor_vars_eq, htr, if_true] at hdag
    refine ⟨hdag.2.1, ?_, hdag.2.2.2, ?_⟩
    · rw [hdag.1]
      rfl
    · rw [hdag.2.2.1]
      rfl
  · intro comp hcomp l1 l2 hl1 hl2 htr
    obtain ⟨ha, hb⟩ := hcomps comp hcomp
    have o1 := ha l1 hl1
    have o2 := hb l2 hl2
    simp only [sub_outcome, htr, if_true] at o1 o2
    refine ⟨o1.2, ?_, o2.2, ?_⟩
    · rw [o1.1]
      rfl
    · rw [o2.1]
      rfl

/-- Witness for C10 at concrete inputs. -/
theorem claim10_witness :
    ∃ cfg' H' L',
      _configure hp_sample env_all_on
        (LOGGING_CONFIG_init default_config_sample) = Option.some cfg' ∧
      dget cfg' "handlers" = Option.some (PyVal.dict H') ∧
      dget cfg' "loggers" = Option.some (PyVal.dict L') ∧
      dget L' "airflow.processor_manager" =
        Option.some (simple_logger_dict "processor_manager" "INFO") ∧
      (dget H' "processor_manager").isSome = true ∧
      dget L' "mwaa.worker" =
        Option.some (simple_logger_dict "mwaa_worker" "WARNING") ∧
      (dget H' "mwaa_worker").isSome = true := by
  obtain ⟨cfg', H', L', h1, h2, h3, hdag, hcomp⟩ :=
    claim10_added_loggers hp_sample env_all_on default_config_sample
      handlers_sample loggers_sample task_logger_sample rfl rfl rfl
  obtain ⟨d1, d2, -, -⟩ := hdag (by decide)
  obtain ⟨w1, w2, -, -⟩ := hcomp "Worker" (by decide) "mwaa.worker"
    "mwaa.worker_requirements" rfl rfl (by decide)
  exact ⟨cfg', H', L', h1, h2, h3, d1, d2, w1, w2⟩

/-- Witness for C2 at concrete inputs. -/
theorem claim2_witness :
    (_get_mwaa_logging_env_vars env_all_on "task").1 =
      env_all_on "MWAA__LOGGING__AIRFLOW_TASK_LOG_GROUP_ARN" ∧
    _get_kms_key_arn env_all_on = env_all_on "MWAA__CORE__KMS_KEY_ARN" ∧
    _get_mwaa_logging_env_vars env_all_on "task" =
      _get_mwaa_logging_env_vars env_all_on_noise "task" := by
  obtain ⟨h1, -, -, -, h5, h6⟩ := claim2_env_vars_contract "task" env_all_on
  exact ⟨h1, h5, h6 env_all_on_noise (by decide)⟩
